import Mathlib

/-!
Verification development for the huobi-chain service layer.

The Rust services are shallowly embedded: machine integers (u64) become
`Nat` with explicit wrap-around at `2 ^ 64` where the source uses
`overflowing_add` / `overflowing_sub`; fallible service calls become
`Except`; the per-service key/value stores become function-valued maps
threaded through each operation.  External collaborators (the KYC engine,
the timestamp service, hashing, JSON serialization) appear as explicit
function parameters, so every definition stays executable.
-/

/-- Size of the u64 value space. -/
def u64Size : Nat := 2 ^ 64

/-- Rust u64::overflowing_add on values already reduced mod 2 ^ 64. -/
def ovAdd (a b : Nat) : Nat × Bool :=
  ((a + b) % u64Size, decide (u64Size ≤ a + b))

/-- Rust u64::overflowing_sub on values already reduced mod 2 ^ 64. -/
def ovSub (a b : Nat) : Nat × Bool :=
  (if b ≤ a then a - b else a + u64Size - b, decide (a < b))

/-- Rust cast `u64 as i64`: two-complement reinterpretation. -/
def wrapI64 (x : Nat) : Int :=
  if x < 2 ^ 63 then (x : Int) else (x : Int) - 2 ^ 64

/-- A proleptic-Gregorian civil date, as produced by chrono year()/month()/day(). -/
structure Date where
  year  : Int
  month : Int
  day   : Int
deriving DecidableEq

/-- Civil date from a count of days since 1970-01-01 (proleptic Gregorian,
the calendar chrono uses for Utc timestamps). -/
def civilFromDays (z0 : Int) : Date :=
  let z := z0 + 719468
  let era := Int.fdiv z 146097
  let doe := z - era * 146097
  let yoe := Int.fdiv (doe - Int.fdiv doe 1460 + Int.fdiv doe 36524 - Int.fdiv doe 146096) 365
  let y := yoe + era * 400
  let doy := doe - (365 * yoe + Int.fdiv yoe 4 - Int.fdiv yoe 100)
  let mp := Int.fdiv (5 * doy + 2) 153
  let d := doy - Int.fdiv (153 * mp + 2) 5 + 1
  let m := if mp < 10 then mp + 3 else mp - 9
  ⟨if m ≤ 2 then y + 1 else y, m, d⟩

/-- UTC calendar date of a millisecond unix timestamp
(chrono Utc.timestamp_millis followed by year()/month()/day()). -/
def dateOfMillis (ms : Int) : Date :=
  civilFromDays (Int.fdiv ms 86400000)

/-- 20-byte account address, abstracted to a countable identifier. -/
abbrev Address := Nat

/-- 32-byte content hash, abstracted to a countable identifier. -/
abbrev Hash := Nat

/-- Slice of the muta ServiceContext the embedded services read (Modelled
from the spec, section Service Context: caller identity, optional
transaction hash, cycle limit, cycle meter, and the opaque extra byte
string used as an impersonation capability token).  The transaction hash
is kept as raw bytes because deploy hashes it. -/
structure ServiceContext where
  caller       : Address
  tx_hash      : Option (List Nat)
  cycles_limit : Nat
  cycles_used  : Nat
  extra        : Option String
deriving DecidableEq

/-- Modelled from the spec (Design notes): sub_cycles(n) charges n against
the interior-mutable cycle meter and reports whether the request is still
within its cycle limit; an operation that would exceed the limit aborts. -/
def ServiceContext.sub_cycles (ctx : ServiceContext) (cycles : Nat) : Bool × ServiceContext :=
  if ctx.cycles_used + cycles ≤ ctx.cycles_limit then
    (true, { ctx with cycles_used := ctx.cycles_used + cycles })
  else (false, ctx)

/-- Modelled from the spec (section 4.5): ServiceContext::with_context
clones a context, replacing the extra capability slot. -/
def ServiceContext.with_context (ctx : ServiceContext) (extra : Option String) : ServiceContext :=
  { ctx with extra := extra }

namespace TransferQuota

/-- Capability token the quota engine recognizes (lib.rs line 24). -/
def TRANSFER_QUOTA_TOKEN : String := "asset_service"

/-- transfer_quota/types.rs Rule. -/
structure Rule where
  kyc_expr : String
  quota    : Nat
deriving DecidableEq

/-- transfer_quota/types.rs AssetConfig. -/
structure AssetConfig where
  admin              : Address
  activated          : Bool
  single_bill_quota  : List Rule
  daily_quota_rule   : List Rule
  monthly_quota_rule : List Rule
  yearly_quota_rule  : List Rule
deriving DecidableEq

/-- transfer_quota/types.rs Record. -/
structure Record where
  last_op_time        : Nat
  daily_used_amount   : Nat
  monthly_used_amount : Nat
  yearly_used_amount  : Nat
deriving DecidableEq

/-- Record::default. -/
def Record.default : Record := ⟨0, 0, 0, 0⟩

/-- transfer_quota/types.rs QuotaType. -/
inductive QuotaType
  | SingleBill
  | Daily
  | Monthly
  | Yearly
deriving DecidableEq

/-- transfer_quota/src/lib.rs ServiceError. -/
inductive ServiceError
  | JsonParse
  | QuotaExceed (t : QuotaType) (added amount quota : Nat)
  | QuotaCalcOverflow (t : QuotaType)
  | QuotaNoRuleHit (t : QuotaType)
  | AssetNotFound (id : Hash)
  | NotAuthorized
  | AssetConfigExist
deriving DecidableEq

/-- transfer_quota/types.rs QuotaTransferPayload. -/
structure QuotaTransferPayload where
  asset_id : Hash
  address  : Address
  amount   : Nat
deriving DecidableEq

/-- transfer_quota/types.rs CreateAssetConfigPayload. -/
structure CreateAssetConfigPayload where
  asset_id : Hash
  admin    : Address
deriving DecidableEq

/-- Durable state of the quota service: the account_record and asset_config
store maps of lib.rs lines 69-72. -/
structure State where
  account_record : Hash → Address → Option Record
  asset_config   : Hash → Option AssetConfig

/-- KYC evaluation oracle standing for kyc.eval_user_tag_expression_:
none models an error response, some b a successful evaluation to b. -/
abbrev KycEval := Address → String → Option Bool

/-- Rule-list selection at the head of check_quota (lib.rs lines 340-348). -/
def AssetConfig.rulesOf (config : AssetConfig) (quota_type : QuotaType) : List Rule :=
  match quota_type with
  | .SingleBill => config.single_bill_quota
  | .Yearly => config.yearly_quota_rule
  | .Monthly => config.monthly_quota_rule
  | .Daily => config.daily_quota_rule

/-- The used computation inside check_quota (lib.rs lines 369-395),
factored over the two chrono dates it compares. -/
def check_quota_used (quota_type : QuotaType) (record : Record) (last_time now : Date) : Nat :=
  match quota_type with
  | .SingleBill => 0
  | .Yearly =>
    if last_time.year = now.year then record.yearly_used_amount else 0
  | .Monthly =>
    if last_time.year = now.year ∧ last_time.month = now.month then
      record.monthly_used_amount
    else 0
  | .Daily =>
    if last_time.year = now.year ∧ last_time.month = now.month ∧ last_time.day = now.day then
      record.daily_used_amount
    else 0

/-- The record update at the tail of check_quota (lib.rs lines 410-421). -/
def Record.setUsed (record : Record) (quota_type : QuotaType) (added_amount : Nat) : Record :=
  match quota_type with
  | .SingleBill => record
  | .Yearly => { record with yearly_used_amount := added_amount }
  | .Monthly => { record with monthly_used_amount := added_amount }
  | .Daily => { record with daily_used_amount := added_amount }

/-- The rule loop of check_quota (lib.rs lines 351-426): rules are tried in
declaration order, a KYC evaluation error skips the rule, the first rule
evaluating true decides the bucket. -/
def check_quota_rules (kycEval : KycEval) (address : Address) (amount : Nat)
    (record : Record) (quota_type : QuotaType) (now : Nat) :
    List Rule → Except ServiceError Record
  | [] => .error (.QuotaNoRuleHit quota_type)
  | rule :: rest =>
    match kycEval address rule.kyc_expr with
    | none => check_quota_rules kycEval address amount record quota_type now rest
    | some kyc_res =>
      if kyc_res then
        let last_time := dateOfMillis (wrapI64 record.last_op_time)
        let nowDate := dateOfMillis (wrapI64 now)
        let used := check_quota_used quota_type record last_time nowDate
        let added := ovAdd used amount
        if added.2 then .error (.QuotaCalcOverflow quota_type)
        else if rule.quota < added.1 then
          .error (.QuotaExceed quota_type added.1 amount rule.quota)
        else .ok (record.setUsed quota_type added.1)
      else check_quota_rules kycEval address amount record quota_type now rest

/-- TransferQuotaService::check_quota (lib.rs lines 330-427). -/
def check_quota (kycEval : KycEval) (address : Address) (amount : Nat)
    (record : Record) (config : AssetConfig) (quota_type : QuotaType) (now : Nat) :
    Except ServiceError Record :=
  check_quota_rules kycEval address amount record quota_type now (config.rulesOf quota_type)

/-- TransferQuotaService::quota_transfer (lib.rs lines 232-322).  The
timestamp service is modelled by the now argument (the success value of
timestamp_service.now_); the KYC service by kycEval. -/
def quota_transfer (kycEval : KycEval) (now : Nat) (st : State) (ctx : ServiceContext)
    (payload : QuotaTransferPayload) : Except ServiceError State :=
  match st.asset_config payload.asset_id with
  | none => .error (.AssetNotFound payload.asset_id)
  | some config =>
    if config.activated = false then .ok st
    else
      let record := (st.account_record payload.asset_id payload.address).getD Record.default
      match check_quota kycEval payload.address payload.amount record config .SingleBill now with
      | .error e => .error e
      | .ok r1 =>
      match check_quota kycEval payload.address payload.amount r1 config .Daily now with
      | .error e => .error e
      | .ok r2 =>
      match check_quota kycEval payload.address payload.amount r2 config .Monthly now with
      | .error e => .error e
      | .ok r3 =>
      match check_quota kycEval payload.address payload.amount r3 config .Yearly now with
      | .error e => .error e
      | .ok r4 =>
        let record' : Hash → Address → Option Record := fun aid addr =>
          if aid = payload.asset_id ∧ addr = payload.address then
            some ({ r4 with last_op_time := now })
          else st.account_record aid addr
        .ok { st with account_record := record' }

/-- TransferQuotaService::create_asset_config (lib.rs lines 128-152). -/
def create_asset_config (st : State) (ctx : ServiceContext) (payload : CreateAssetConfigPayload) :
    Except ServiceError State :=
  match ctx.extra with
  | some extra =>
    if extra = TRANSFER_QUOTA_TOKEN then
      if (st.asset_config payload.asset_id).isSome then .error .AssetConfigExist
      else
        let config' : Hash → Option AssetConfig := fun aid =>
          if aid = payload.asset_id then
            some (⟨payload.admin, false, [], [], [], []⟩ : AssetConfig)
          else st.asset_config aid
        .ok { st with asset_config := config' }
    else .error .NotAuthorized
  | none => .error .NotAuthorized

/-- First rule of a list whose KYC expression evaluates true for the
address, skipping rules whose evaluation errors (spec-side notion used to
state the quota claims). -/
def firstMatch (kycEval : KycEval) (address : Address) : List Rule → Option Rule
  | [] => none
  | rule :: rest =>
    match kycEval address rule.kyc_expr with
    | some true => some rule
    | _ => firstMatch kycEval address rest

/-- Spec-side used counter per bucket, phrased through calendar component
tuple equality exactly as the spec words it. -/
def bucketUsedSpec (record : Record) (quota_type : QuotaType) (last_time now : Date) : Nat :=
  match quota_type with
  | .SingleBill => 0
  | .Daily =>
    if (last_time.year, last_time.month, last_time.day) = (now.year, now.month, now.day) then
      record.daily_used_amount
    else 0
  | .Monthly =>
    if (last_time.year, last_time.month) = (now.year, now.month) then
      record.monthly_used_amount
    else 0
  | .Yearly =>
    if last_time.year = now.year then record.yearly_used_amount else 0

/-- Used counter of a bucket computed from the stored record and the raw
millisecond timestamps. -/
def bucketUsedAt (record : Record) (quota_type : QuotaType) (now : Nat) : Nat :=
  bucketUsedSpec record quota_type
    (dateOfMillis (wrapI64 record.last_op_time)) (dateOfMillis (wrapI64 now))

/-- The four buckets in the fixed iteration order of quota_transfer. -/
def buckets : List QuotaType := [.SingleBill, .Daily, .Monthly, .Yearly]

end TransferQuota

namespace Asset

/-- Capability token the asset service attaches for the quota engine
(asset/src/lib.rs line 25). -/
def TRANSFER_QUOTA_TOKEN : String := "asset_service"

/-- Governance capability token checked by hook_transfer_from
(asset/src/lib.rs line 537). -/
def GOVERNANCE_TOKEN : String := "governance"

/-- asset/src/lib.rs ServiceError. -/
inductive ServiceError
  | AssetNotFound (id : Hash)
  | LackOfBalance (expect real : Nat)
  | JsonParse
  | Exists (id : Hash)
  | FeeNotEnough
  | BalanceOverflow
  | ApproveToSelf
  | NotHexCaller
  | Unauthorized
  | Format
  | NotRelayable
  | NoNativeAsset
  | MeaningLessValue (field : String)
  | MintNotEqualSupply
  | TooLongMemo
  | CreateTransferQuota
  | TransferQuota
deriving DecidableEq

/-- asset/src/types.rs Asset record. -/
structure Asset where
  id        : Hash
  name      : String
  symbol    : String
  admin     : Address
  supply    : Nat
  precision : Nat
  relayable : Bool
deriving DecidableEq

/-- asset/src/types.rs AssetBalance.  The BTreeMap of allowances is kept as
a total function with missing entries read as 0, which is exactly how the
allowance accessor reads it (get.unwrap_or(0)). -/
structure AssetBalance where
  value     : Nat
  allowance : Address → Nat

/-- AssetBalance::default. -/
def AssetBalance.default : AssetBalance := ⟨0, fun _ => 0⟩

/-- AssetBalance::new. -/
def AssetBalance.new (supply : Nat) : AssetBalance := ⟨supply, fun _ => 0⟩

/-- AssetBalance::checked_add (types.rs lines 329-337). -/
def AssetBalance.checked_add (b : AssetBalance) (amount : Nat) :
    Except ServiceError AssetBalance :=
  let checked := ovAdd b.value amount
  if checked.2 then .error .BalanceOverflow else .ok { b with value := checked.1 }

/-- AssetBalance::checked_sub (types.rs lines 339-347). -/
def AssetBalance.checked_sub (b : AssetBalance) (amount : Nat) :
    Except ServiceError AssetBalance :=
  let checked := ovSub b.value amount
  if checked.2 then .error .BalanceOverflow else .ok { b with value := checked.1 }

/-- AssetBalance::update_allowance (types.rs lines 353-358). -/
def AssetBalance.update_allowance (b : AssetBalance) (spender : Address) (value : Nat) :
    AssetBalance :=
  { b with allowance := fun a => if a = spender then value else b.allowance a }

/-- asset/src/types.rs IssuerWithBalance. -/
structure IssuerWithBalance where
  addr    : Address
  balance : Nat
deriving DecidableEq

/-- asset/src/types.rs TransferPayload. -/
structure TransferPayload where
  asset_id : Hash
  «to»     : Address
  value    : Nat
  memo     : String
deriving DecidableEq

/-- asset/src/types.rs TransferFromPayload. -/
structure TransferFromPayload where
  asset_id  : Hash
  sender    : Address
  recipient : Address
  value     : Nat
  memo      : String
deriving DecidableEq

/-- asset/src/types.rs HookTransferFromPayload. -/
structure HookTransferFromPayload where
  sender    : Address
  recipient : Address
  value     : Nat
  memo      : String
deriving DecidableEq

/-- asset/src/types.rs CreateAssetPayload. -/
structure CreateAssetPayload where
  name       : String
  symbol     : String
  admin      : Address
  supply     : Nat
  init_mints : List IssuerWithBalance
  precision  : Nat
  relayable  : Bool
deriving DecidableEq

/-- types.rs verify_memo: at most 256 characters. -/
def verify_memo (memo : String) : Except ServiceError Unit :=
  if 256 < memo.length then .error .TooLongMemo else .ok ()

/-- types.rs verify_asset_name: 1-40 chars; alphanumeric, underscore or
space; no leading underscore, space or digit; no trailing underscore or
space. -/
def verify_asset_name (name : String) : Except ServiceError Unit :=
  let length := name.length
  if 40 < length ∨ length = 0 then .error .Format
  else if name.toList.enum.all (fun ic =>
      (ic.2.isAlphanum ∨ ic.2 = Char.ofNat 95 ∨ ic.2 = Char.ofNat 32)
      ∧ (ic.1 = 0 → ¬(ic.2 = Char.ofNat 95 ∨ ic.2 = Char.ofNat 32 ∨ ic.2.isDigit))
      ∧ (ic.1 = length - 1 → ¬(ic.2 = Char.ofNat 95 ∨ ic.2 = Char.ofNat 32))) then
    .ok ()
  else .error .Format

/-- types.rs verify_asset_symbol: 1-10 chars, alphanumeric, first char an
ASCII uppercase letter. -/
def verify_asset_symbol (symbol : String) : Except ServiceError Unit :=
  let length := symbol.length
  if 10 < length ∨ length = 0 then .error .Format
  else if symbol.toList.enum.all (fun ic =>
      ic.2.isAlphanum ∧ (ic.1 = 0 → ic.2.isUpper)) then
    .ok ()
  else .error .Format

/-- types.rs verify_issuers: per-issuer verify plus checked sum. -/
def verify_issuers (issuers : List IssuerWithBalance) : Except ServiceError Nat :=
  issuers.foldlM (fun acc issuer =>
    if issuer.balance = 0 then .error (.MeaningLessValue ("issuer balance"))
    else if issuer.addr = 0 then .error (.MeaningLessValue ("issuer addr"))
    else
      let checked := ovAdd acc issuer.balance
      if checked.2 then .error .BalanceOverflow else .ok checked.1) 0

/-- TransferPayload::verify (types.rs lines 134-152): Hash::default and
Address::default are the all-zero values, modelled by 0. -/
def TransferPayload.verify (p : TransferPayload) : Except ServiceError Unit :=
  match verify_memo p.memo with
  | .error e => .error e
  | .ok _ =>
    if p.asset_id = 0 then .error (.MeaningLessValue ("asset_id"))
    else if p.«to» = 0 then .error (.MeaningLessValue ("to"))
    else if p.value = 0 then .error (.MeaningLessValue ("value"))
    else .ok ()

/-- TransferFromPayload::verify (types.rs lines 183-205). -/
def TransferFromPayload.verify (p : TransferFromPayload) : Except ServiceError Unit :=
  match verify_memo p.memo with
  | .error e => .error e
  | .ok _ =>
    if p.asset_id = 0 then .error (.MeaningLessValue ("asset_id"))
    else if p.sender = 0 then .error (.MeaningLessValue ("sender"))
    else if p.recipient = 0 then .error (.MeaningLessValue ("recipient"))
    else if p.value = 0 then .error (.MeaningLessValue ("value"))
    else .ok ()

/-- HookTransferFromPayload::verify (types.rs lines 216-232). -/
def HookTransferFromPayload.verify (p : HookTransferFromPayload) : Except ServiceError Unit :=
  match verify_memo p.memo with
  | .error e => .error e
  | .ok _ =>
    if p.sender = 0 then .error (.MeaningLessValue ("sender"))
    else if p.recipient = 0 then .error (.MeaningLessValue ("recipient"))
    else if p.value = 0 then .error (.MeaningLessValue ("value"))
    else .ok ()

/-- CreateAssetPayload::verify (types.rs lines 95-109). -/
def CreateAssetPayload.verify (p : CreateAssetPayload) : Except ServiceError Unit :=
  match verify_asset_name p.name with
  | .error e => .error e
  | .ok _ =>
  match verify_asset_symbol p.symbol with
  | .error e => .error e
  | .ok _ =>
    if p.supply = 0 then .error (.MeaningLessValue ("supply"))
    else
      match verify_issuers p.init_mints with
      | .error e => .error e
      | .ok mint_balance =>
        if mint_balance ≠ p.supply then .error .MintNotEqualSupply else .ok ()

/-- Durable state of the asset service: the assets store map, the
per-account balances, and the native_asset well-known key. -/
structure State where
  assets       : Hash → Option Asset
  balances     : Address → Hash → Option AssetBalance
  native_asset : Option Hash

/-- External collaborators of the asset service: Address::from_hex over
the utf8 bytes of extra (Modelled from the spec, section 4.5 caller
override), and Hash::digest of the creation payload JSON concatenated with
the caller (spec, section 3 asset record). -/
structure Env where
  from_hex    : String → Option Address
  mk_asset_id : CreateAssetPayload → Address → Hash

/-- The transfer-quota collaborator as the asset service sees it through
TransferQuotaInterface: each call either succeeds (true) or reports a
service error (false). -/
structure QuotaEngine where
  quota_transfer_      : ServiceContext → TransferQuota.QuotaTransferPayload → Bool
  create_asset_config_ : ServiceContext → TransferQuota.CreateAssetConfigPayload → Bool

/-- One recorded invocation of the transfer-quota collaborator, with the
exact context object the asset service forwarded. -/
inductive QuotaCall
  | quotaTransfer (ctx : ServiceContext) (payload : TransferQuota.QuotaTransferPayload)
  | createConfig (ctx : ServiceContext) (payload : TransferQuota.CreateAssetConfigPayload)
deriving DecidableEq

/-- AssetService::asset_balance (lib.rs lines 714-717). -/
def asset_balance (st : State) (account : Address) (asset_id : Hash) : AssetBalance :=
  (st.balances account asset_id).getD AssetBalance.default

/-- ServiceSDK::set_account_value as the asset service uses it. -/
def set_account_value (st : State) (account : Address) (asset_id : Hash) (b : AssetBalance) :
    State :=
  let balances' : Address → Hash → Option AssetBalance := fun a h =>
    if a = account ∧ h = asset_id then some b else st.balances a h
  { st with balances := balances' }

/-- AssetService::set_asset_ (lib.rs lines 738-740). -/
def set_asset_ (st : State) (asset : Asset) : State :=
  let assets' : Hash → Option Asset := fun h =>
    if h = asset.id then some asset else st.assets h
  { st with assets := assets' }

/-- AssetService::extra_caller (lib.rs lines 719-732). -/
def extra_caller (env : Env) (ctx : ServiceContext) : Except ServiceError Address :=
  match ctx.extra with
  | some extra =>
    match env.from_hex extra with
    | some addr => .ok addr
    | none => .error .NotHexCaller
  | none => .ok ctx.caller

/-- AssetService::_transfer (lib.rs lines 685-712).  The state is returned
alongside the outcome because the sender debit persists even if the later
credit overflows. -/
def _transfer (st : State) (sender recipient : Address) (asset_id : Hash) (value : Nat) :
    Except ServiceError Unit × State :=
  if sender = recipient then (.ok (), st)
  else
    let sender_balance := asset_balance st sender asset_id
    if sender_balance.value < value then
      (.error (.LackOfBalance value sender_balance.value), st)
    else
      match sender_balance.checked_sub value with
      | .error e => (.error e, st)
      | .ok sb =>
        let st1 := set_account_value st sender asset_id sb
        let recipient_balance := asset_balance st1 recipient asset_id
        match recipient_balance.checked_add value with
        | .error e => (.error e, st1)
        | .ok rb => (.ok (), set_account_value st1 recipient asset_id rb)

/-- The optional quota consultation shared by transfer and transfer_from
(lib.rs lines 419-430 and 495-506): the context is forwarded by clone,
and the outcome plus the recorded call are returned. -/
def quota_consult (tqs : Option QuotaEngine) (ctx : ServiceContext)
    (qp : TransferQuota.QuotaTransferPayload) :
    Except ServiceError Unit × List QuotaCall :=
  match tqs with
  | some q =>
    if q.quota_transfer_ ctx qp then (.ok (), [.quotaTransfer ctx qp])
    else (.error .TransferQuota, [.quotaTransfer ctx qp])
  | none => (.ok (), [])

/-- AssetService::transfer (lib.rs lines 410-457). -/
def transfer (env : Env) (tqs : Option QuotaEngine) (st : State) (ctx : ServiceContext)
    (payload : TransferPayload) :
    Except ServiceError Unit × State × List QuotaCall :=
  match payload.verify with
  | .error e => (.error e, st, [])
  | .ok _ =>
  if (st.assets payload.asset_id).isNone then
    (.error (.AssetNotFound payload.asset_id), st, [])
  else
  match extra_caller env ctx with
  | .error e => (.error e, st, [])
  | .ok sender =>
    let consult :=
      quota_consult tqs ctx ⟨payload.asset_id, ctx.caller, payload.value⟩
    match consult.1 with
    | .error e => (.error e, st, consult.2)
    | .ok _ =>
      let res := _transfer st sender payload.«to» payload.asset_id payload.value
      (res.1, res.2, consult.2)

/-- AssetService::transfer_from (lib.rs lines 461-526).  Note the source
order: the decremented allowance is persisted before the quota engine is
consulted. -/
def transfer_from (env : Env) (tqs : Option QuotaEngine) (st : State) (ctx : ServiceContext)
    (payload : TransferFromPayload) :
    Except ServiceError Unit × State × List QuotaCall :=
  match payload.verify with
  | .error e => (.error e, st, [])
  | .ok _ =>
  if (st.assets payload.asset_id).isNone then
    (.error (.AssetNotFound payload.asset_id), st, [])
  else
  match extra_caller env ctx with
  | .error e => (.error e, st, [])
  | .ok caller =>
    let sender_balance := asset_balance st payload.sender payload.asset_id
    let caller_allowance := sender_balance.allowance caller
    if caller_allowance < payload.value then
      (.error (.LackOfBalance payload.value caller_allowance), st, [])
    else
      let checked := ovSub caller_allowance payload.value
      if checked.2 then (.error .BalanceOverflow, st, [])
      else
        let sb := sender_balance.update_allowance caller checked.1
        let st1 := set_account_value st payload.sender payload.asset_id sb
        let consult :=
          quota_consult tqs ctx ⟨payload.asset_id, payload.sender, payload.value⟩
        match consult.1 with
        | .error e => (.error e, st1, consult.2)
        | .ok _ =>
          let res :=
            _transfer st1 payload.sender payload.recipient payload.asset_id payload.value
          (res.1, res.2, consult.2)

/-- AssetService::create_asset (lib.rs lines 346-406).  Note the source
order: the asset record and the init-mint balances are persisted before
the quota engine is asked to create the asset config. -/
def create_asset (env : Env) (tqs : Option QuotaEngine) (st : State) (ctx : ServiceContext)
    (payload : CreateAssetPayload) :
    Except ServiceError Asset × State × List QuotaCall :=
  match payload.verify with
  | .error e => (.error e, st, [])
  | .ok _ =>
    let caller := ctx.caller
    let asset_id := env.mk_asset_id payload caller
    if (st.assets asset_id).isSome then (.error (.Exists asset_id), st, [])
    else
      let asset : Asset :=
        ⟨asset_id, payload.name, payload.symbol, payload.admin,
         payload.supply, payload.precision, payload.relayable⟩
      let st1 := set_asset_ st asset
      let st2 := payload.init_mints.foldl
        (fun s mint => set_account_value s mint.addr asset.id (AssetBalance.new mint.balance)) st1
      match tqs with
      | some q =>
        let ctx2 := ctx.with_context (some TRANSFER_QUOTA_TOKEN)
        let cp : TransferQuota.CreateAssetConfigPayload := ⟨asset_id, payload.admin⟩
        if q.create_asset_config_ ctx2 cp then (.ok asset, st2, [.createConfig ctx2 cp])
        else (.error .CreateTransferQuota, st2, [.createConfig ctx2 cp])
      | none => (.ok asset, st2, [])

/-- AssetService::hook_transfer_from (lib.rs lines 528-550). -/
def hook_transfer_from (st : State) (ctx : ServiceContext)
    (payload : HookTransferFromPayload) :
    Except ServiceError Unit × State :=
  match payload.verify with
  | .error e => (.error e, st)
  | .ok _ =>
    let rest : Except ServiceError Unit × State :=
      match st.native_asset with
      | none => (.error .NoNativeAsset, st)
      | some asset_id => _transfer st payload.sender payload.recipient asset_id payload.value
    match ctx.extra with
    | some admin_key => if admin_key = GOVERNANCE_TOKEN then rest else (.error .Unauthorized, st)
    | none => rest

end Asset

namespace Chain

/-- riscv ServiceError variants the chain bridge produces (riscv/src/error.rs
is not part of the sources; the variant names follow the spec error
taxonomy, with Other carrying responses bubbled up from sibling services). -/
inductive ServiceError
  | OutOfCycles
  | WriteInReadonlyContext
  | ServiceNotFound
  | MethodNotFound
  | Serde
  | Other (code : Nat) (msg : String)
deriving DecidableEq

/-- ServiceResponse specialised to the bridge: either the succeed_data or an
error response. -/
abbrev Resp (α : Type) := Except ServiceError α

/-- chain_interface.rs CycleContext (lines 75-88). -/
structure CycleContext where
  inner           : ServiceContext
  all_cycles_used : Nat
deriving DecidableEq

/-- WriteableChain::serve (chain_interface.rs lines 126-145).  The host
operation f receives the shared context (it may charge it further) and
returns the encoded response together with the context it left behind. -/
def serve (f : ServiceContext → Resp String × ServiceContext) (cycle_ctx : CycleContext)
    (current_cycle : Nat) : Resp (String × Nat) × CycleContext :=
  let vm_cycle := ovSub current_cycle cycle_ctx.all_cycles_used
  if vm_cycle.2 then (.error .OutOfCycles, cycle_ctx)
  else
    match cycle_ctx.inner.sub_cycles vm_cycle.1 with
    | (false, inner1) => (.error .OutOfCycles, { cycle_ctx with inner := inner1 })
    | (true, inner1) =>
      let fr := f inner1
      match fr.1 with
      | .error e => (.error e, { cycle_ctx with inner := fr.2 })
      | .ok data =>
        let newAll := fr.2.cycles_used
        (.ok (data, newAll), ⟨fr.2, newAll⟩)

/-- The six per-service dispatchers read_asset / write_asset /
read_governance / write_governance / read_kyc / write_kyc of
chain_interface.rs lines 151-204, abstracted as parameters taking the
method name, the raw JSON payload and the shared context. -/
structure Handlers where
  read_asset       : String → String → ServiceContext → Resp String × ServiceContext
  write_asset      : String → String → ServiceContext → Resp String × ServiceContext
  read_governance  : String → String → ServiceContext → Resp String × ServiceContext
  write_governance : String → String → ServiceContext → Resp String × ServiceContext
  read_kyc         : String → String → ServiceContext → Resp String × ServiceContext
  write_kyc        : String → String → ServiceContext → Resp String × ServiceContext

/-- The service-name match inside WriteableChain::service_read
(chain_interface.rs lines 253-260). -/
def dispatch_read (h : Handlers) (service method payload : String) (c : ServiceContext) :
    Resp String × ServiceContext :=
  match service with
  | "asset" => h.read_asset method payload c
  | "governance" => h.read_governance method payload c
  | "kyc" => h.read_kyc method payload c
  | _ => (.error .ServiceNotFound, c)

/-- The service-name match inside WriteableChain::service_write
(chain_interface.rs lines 275-281). -/
def dispatch_write (h : Handlers) (service method payload : String) (c : ServiceContext) :
    Resp String × ServiceContext :=
  match service with
  | "asset" => h.write_asset method payload c
  | "governance" => h.write_governance method payload c
  | "kyc" => h.write_kyc method payload c
  | _ => (.error .ServiceNotFound, c)

/-- Mutable state of a chain bridge: the all_cycles_used reconciliation
field plus the sdk key/value store reachable through set_storage. -/
structure BridgeState where
  all_cycles_used : Nat
  store           : Hash → Option String

/-- WriteableChain::service_read (chain_interface.rs lines 244-264). -/
def WriteableChain.service_read (h : Handlers) (st : BridgeState) (ctx : ServiceContext)
    (service method payload : String) (current_cycle : Nat) :
    Resp (String × Nat) × BridgeState × ServiceContext :=
  let r := serve (dispatch_read h service method payload) ⟨ctx, st.all_cycles_used⟩ current_cycle
  (r.1, { st with all_cycles_used := r.2.all_cycles_used }, r.2.inner)

/-- WriteableChain::service_write (chain_interface.rs lines 266-287). -/
def WriteableChain.service_write (h : Handlers) (st : BridgeState) (ctx : ServiceContext)
    (service method payload : String) (current_cycle : Nat) :
    Resp (String × Nat) × BridgeState × ServiceContext :=
  let r := serve (dispatch_write h service method payload) ⟨ctx, st.all_cycles_used⟩ current_cycle
  (r.1, { st with all_cycles_used := r.2.all_cycles_used }, r.2.inner)

/-- JSON round-trips done by contract_call: ExecPayload::new(..).json()
and the serde parse inside decode_json_response, abstracted as
parameters. -/
structure JsonCodec where
  encode_payload : Address → String → Option String
  decode_ret     : String → Option String

/-- decode_json_response (chain_interface.rs lines 366-378). -/
def decode_json_response (dec : String → Option String) (resp : Resp (String × Nat)) :
    Resp (String × Nat) :=
  match resp with
  | .error e => .error e
  | .ok jr =>
    match dec jr.1 with
    | some raw_ret => .ok (raw_ret, jr.2)
    | none => .error .Serde

/-- WriteableChain::contract_call (chain_interface.rs lines 229-242):
routed as a service_write of riscv exec. -/
def WriteableChain.contract_call (h : Handlers) (codec : JsonCodec) (st : BridgeState)
    (ctx : ServiceContext) (address : Address) (args : String) (current_cycle : Nat) :
    Resp (String × Nat) × BridgeState × ServiceContext :=
  match codec.encode_payload address args with
  | none => (.error .Serde, st, ctx)
  | some json_payload =>
    let r := WriteableChain.service_write h st ctx ("riscv") ("exec") json_payload current_cycle
    (decode_json_response codec.decode_ret r.1, r.2.1, r.2.2)

/-- ReadonlyChain::set_storage (chain_interface.rs lines 325-327). -/
def ReadonlyChain.set_storage (st : BridgeState) (_key _val : String) :
    Resp Unit × BridgeState :=
  (.error .WriteInReadonlyContext, st)

/-- ReadonlyChain::service_read (chain_interface.rs lines 344-353):
delegates to the inner writeable chain. -/
def ReadonlyChain.service_read (h : Handlers) (st : BridgeState) (ctx : ServiceContext)
    (service method payload : String) (current_cycle : Nat) :
    Resp (String × Nat) × BridgeState × ServiceContext :=
  WriteableChain.service_read h st ctx service method payload current_cycle

/-- ReadonlyChain::service_write (chain_interface.rs lines 355-363). -/
def ReadonlyChain.service_write (st : BridgeState) (ctx : ServiceContext)
    (_service _method _payload : String) (_current_cycle : Nat) :
    Resp (String × Nat) × BridgeState × ServiceContext :=
  (.error .WriteInReadonlyContext, st, ctx)

/-- ReadonlyChain::contract_call (chain_interface.rs lines 329-342):
routed as a service_read of riscv call. -/
def ReadonlyChain.contract_call (h : Handlers) (codec : JsonCodec) (st : BridgeState)
    (ctx : ServiceContext) (address : Address) (args : String) (current_cycle : Nat) :
    Resp (String × Nat) × BridgeState × ServiceContext :=
  match codec.encode_payload address args with
  | none => (.error .Serde, st, ctx)
  | some json_payload =>
    let r := ReadonlyChain.service_read h st ctx ("riscv") ("call") json_payload current_cycle
    (decode_json_response codec.decode_ret r.1, r.2.1, r.2.2)

end Chain

namespace Riscv

/-- Raw byte strings (code, hashes, addresses) as lists of byte values. -/
abbrev ByteL := List Nat

/-- riscv ServiceError variants used by deploy (riscv/src/error.rs is not
part of the sources; names follow the call sites in riscv/src/lib.rs). -/
inductive ServiceError
  | NonAuthorized
  | HexDecode
  | NotInExecContext (which : String)
  | InvalidContractAddress
  | OutOfCycles
  | ContractNotFound
  | CodeNotFound
  | NonZeroExitCode (exitcode : Int) (ret : String)
  | CkbVm
deriving DecidableEq

/-- riscv interpreter kind. -/
inductive InterpreterType
  | Binary
  | Duktape
deriving DecidableEq

/-- riscv Contract record: Contract::new(code_hash, intp_type); the
authorizer field is filled in only by load_contract and is not touched by
deploy. -/
structure Contract where
  code_hash : ByteL
  intp_type : InterpreterType
deriving DecidableEq

/-- riscv DeployPayload. -/
structure DeployPayload where
  code      : String
  intp_type : InterpreterType
  init_args : String
deriving DecidableEq

/-- riscv DeployResp; the address is kept as its 20 raw bytes. -/
structure DeployResp where
  address  : ByteL
  init_ret : String
deriving DecidableEq

/-- One hex digit (hex::decode semantics). -/
def hexDigit (c : Char) : Option Nat :=
  if ('0' ≤ c ∧ c ≤ '9') then some (c.toNat - 48)
  else if ('a' ≤ c ∧ c ≤ 'f') then some (c.toNat - 87)
  else if ('A' ≤ c ∧ c ≤ 'F') then some (c.toNat - 55)
  else none

/-- hex::decode over the code string: pairs of hex digits, failing on an
odd length or a non-hex character. -/
def hex_decode : List Char → Option ByteL
  | [] => some []
  | [_] => none
  | c1 :: c2 :: rest =>
    match hexDigit c1, hexDigit c2, hex_decode rest with
    | some d1, some d2, some tl => some ((d1 * 16 + d2) :: tl)
    | _, _, _ => none

/-- Modelled from the spec (section 3): addresses are exactly 20 bytes, so
Address::from_bytes succeeds precisely on 20-byte inputs. -/
def address_from_bytes (bytes : ByteL) : Option ByteL :=
  if bytes.length = 20 then some bytes else none

/-- Durable state of the riscv service: the content-addressed code map,
the per-address contract records, and the namespaced contract storage the
init run can write through the bridge.  The three live in one typed
key/value store in the source; they are kept apart here because deploy
addresses them through distinct key types. -/
structure State where
  code_map     : ByteL → Option ByteL
  contract_map : ByteL → Option Contract
  storage      : Hash → Option String

/-- External collaborators of deploy: Hash::digest and the authorization
registry lookup granted(caller, Kind::Deploy). -/
structure Env where
  digest      : ByteL → ByteL
  auth_deploy : Address → Bool

/-- Result of one Interpreter::run(): exit code, return buffer, the VM
cycle counter, and the contract storage as left by its syscalls. -/
structure IntpResult where
  ret_code    : Int
  ret         : String
  cycles_used : Nat
  storage     : Hash → Option String

/-- The interpreter as deploy sees it: from the contract storage it may
read and write, either a run result or a VM-level error (none). -/
abbrev Interpreter := (Hash → Option String) → Option IntpResult

/-- RiscvService::run_interpreter (riscv/src/lib.rs lines 378-407). -/
def run_interpreter (intp : Interpreter) (ctx : ServiceContext)
    (storage : Hash → Option String) :
    Except ServiceError (String × ServiceContext × (Hash → Option String)) :=
  match intp storage with
  | none => .error .CkbVm
  | some int_ret =>
    if int_ret.ret_code = 0 then
      match ctx.sub_cycles int_ret.cycles_used with
      | (false, _) => .error .OutOfCycles
      | (true, ctx1) => .ok (int_ret.ret, ctx1, int_ret.storage)
    else .error (.NonZeroExitCode int_ret.ret_code int_ret.ret)

/-- RiscvService::deploy (riscv/src/lib.rs lines 224-303). -/
def deploy (env : Env) (intp : Interpreter) (st : State) (ctx : ServiceContext)
    (payload : DeployPayload) :
    Except ServiceError DeployResp × State × ServiceContext :=
  if env.auth_deploy ctx.caller = false then (.error .NonAuthorized, st, ctx)
  else
    match hex_decode payload.code.toList with
    | none => (.error .HexDecode, st, ctx)
    | some code =>
      let code_hash := env.digest code
      let code_len := code.length
      match ctx.sub_cycles (code_len * 10) with
      | (false, ctx1) => (.error .OutOfCycles, st, ctx1)
      | (true, ctx1) =>
        let code_map' : ByteL → Option ByteL := fun h =>
          if h = code_hash then some code else st.code_map h
        let st1 := { st with code_map := code_map' }
        match ctx.tx_hash with
        | none => (.error (.NotInExecContext ("riscv deploy")), st1, ctx1)
        | some tx_hash =>
          let addr_in_bytes := (env.digest tx_hash).take 20
          match address_from_bytes addr_in_bytes with
          | none => (.error .InvalidContractAddress, st1, ctx1)
          | some contract_address =>
            let contract : Contract := ⟨code_hash, payload.intp_type⟩
            let contract_map' : ByteL → Option Contract := fun a =>
              if a = contract_address then some contract else st1.contract_map a
            let st2 := { st1 with contract_map := contract_map' }
            if payload.init_args = ("") then
              (.ok ⟨contract_address, ""⟩, st2, ctx1)
            else
              match run_interpreter intp ctx1 st2.storage with
              | .error e => (.error e, st2, ctx1)
              | .ok out => (.ok ⟨contract_address, out.1⟩,
                  { st2 with storage := out.2.2 }, out.2.1)

end Riscv


namespace TransferQuota

/-- Stored record of the payload account, defaulting like
unwrap_or_else(Record::default) in quota_transfer. -/
def recordOf (st : State) (p : QuotaTransferPayload) : Record :=
  (st.account_record p.asset_id p.address).getD Record.default

/-- A bucket is offending when the requested amount on top of the bucket
used counter exceeds the quota of its first matching rule. -/
def offendP (k : KycEval) (address : Address) (cfg : AssetConfig) (rec : Record)
    (amount now : Nat) (qt : QuotaType) : Bool :=
  match firstMatch k address (cfg.rulesOf qt) with
  | some r => decide (r.quota < bucketUsedAt rec qt now + amount)
  | none => false

/-- First bucket, in the fixed SingleBill, Daily, Monthly, Yearly order,
whose first matching rule would be exceeded by the requested amount. -/
def firstOffender (k : KycEval) (address : Address) (cfg : AssetConfig) (rec : Record)
    (amount now : Nat) : Option QuotaType :=
  buckets.find? (offendP k address cfg rec amount now)

/-- State written back by a successful quota_transfer: the account record
carries the accumulated daily, monthly and yearly counters and
last_op_time is set to now. -/
def updatedState (st : State) (p : QuotaTransferPayload) (now uD uM uY : Nat) : State :=
  let record' : Hash → Address → Option Record := fun aid addr =>
    if aid = p.asset_id ∧ addr = p.address then some ⟨now, uD, uM, uY⟩
    else st.account_record aid addr
  { st with account_record := record' }

/-- Spec-level outcome of one bucket: no matching rule is QuotaNoRuleHit,
an overflowing sum is QuotaCalcOverflow, a sum beyond the first matching
rule quota is QuotaExceed, and otherwise the accumulated counter is
returned. -/
def bucketOutcome (k : KycEval) (address : Address) (cfg : AssetConfig) (rec : Record)
    (amount now : Nat) (qt : QuotaType) : Except ServiceError Nat :=
  match firstMatch k address (cfg.rulesOf qt) with
  | none => .error (.QuotaNoRuleHit qt)
  | some r =>
    if u64Size ≤ bucketUsedAt rec qt now + amount then .error (.QuotaCalcOverflow qt)
    else if r.quota < bucketUsedAt rec qt now + amount then
      .error (.QuotaExceed qt (bucketUsedAt rec qt now + amount) amount r.quota)
    else .ok (bucketUsedAt rec qt now + amount)

end TransferQuota

/-! Calendar sanity checks: the UTC dates of the unix epoch and of the
timestamps used by the transfer_quota test fixtures (the fixture comments
give the corresponding UTC+8 local dates). -/

example : dateOfMillis 0 = ⟨1970, 1, 1⟩ := by decide
example : dateOfMillis (-1) = ⟨1969, 12, 31⟩ := by decide
example : dateOfMillis (wrapI64 1599414073000) = ⟨2020, 9, 6⟩ := by decide
example : dateOfMillis (wrapI64 1599500713000) = ⟨2020, 9, 7⟩ := by decide
example : dateOfMillis (wrapI64 1602092713000) = ⟨2020, 10, 7⟩ := by decide
example : dateOfMillis (wrapI64 1633628713000) = ⟨2021, 10, 7⟩ := by decide

namespace TransferQuota

/-- Sanity check mirroring the test_single_bill fixture: an L1 account with
a fresh record may move 1000 under a 1500 single-bill quota. -/
example :
    (quota_transfer (fun _ e => some (e == ("L1"))) 1599414073000
      ⟨fun _ _ => some ⟨1599414073000, 0, 0, 0⟩,
       fun _ => some ⟨0, true, [⟨("L1"), 1500⟩], [⟨("L1"), 2000⟩],
         [⟨("L1"), 60000⟩], [⟨("L1"), 720000⟩]⟩⟩
      ⟨1, none, 0, 0, none⟩ ⟨9, 3, 1000⟩).isOk = true := by rfl

/-- Sanity check mirroring test_daily: with 2000 already used today, one
more unit trips the Daily bucket with the added amount named. -/
example :
    quota_transfer (fun _ e => some (e == ("L1"))) 1599414073000
      ⟨fun _ _ => some ⟨1599414073000, 2000, 0, 0⟩,
       fun _ => some ⟨0, true, [⟨("L1"), 1500⟩], [⟨("L1"), 2000⟩],
         [⟨("L1"), 60000⟩], [⟨("L1"), 720000⟩]⟩⟩
      ⟨1, none, 0, 0, none⟩ ⟨9, 3, 1⟩
    = .error (.QuotaExceed .Daily 2001 1 2000) := by rfl

/-- Sanity check mirroring the daily rollover of test_daily: on the next
UTC day the daily counter is ignored. -/
example :
    (quota_transfer (fun _ e => some (e == ("L1"))) 1599500713000
      ⟨fun _ _ => some ⟨1599414073000, 2000, 0, 0⟩,
       fun _ => some ⟨0, true, [⟨("L1"), 1500⟩], [⟨("L1"), 2000⟩],
         [⟨("L1"), 60000⟩], [⟨("L1"), 720000⟩]⟩⟩
      ⟨1, none, 0, 0, none⟩ ⟨9, 3, 500⟩).isOk = true := by rfl

/-- The inline used computation of check_quota agrees bucket by bucket with
the calendar-tuple-equality reading of the spec. -/
theorem check_quota_used_eq_spec (qt : QuotaType) (rec : Record) (lt nt : Date) :
    check_quota_used qt rec lt nt = bucketUsedSpec rec qt lt nt := by
  cases qt <;> simp [check_quota_used, bucketUsedSpec, Prod.mk.injEq, and_assoc]

/-- A rule list with no matching rule fails the bucket with QuotaNoRuleHit. -/
theorem check_quota_rules_no_match (k : KycEval) (address : Address) (amount : Nat)
    (rec : Record) (qt : QuotaType) (now : Nat) (rules : List Rule)
    (h : firstMatch k address rules = none) :
    check_quota_rules k address amount rec qt now rules = .error (.QuotaNoRuleHit qt) := by
  induction rules with
  | nil => rfl
  | cons rule rest ih =>
    rcases hk : k address rule.kyc_expr with _ | b
    · simp only [firstMatch, hk] at h
      simp only [check_quota_rules, hk]
      exact ih h
    · cases b
      · simp only [firstMatch, hk] at h
        simp only [check_quota_rules, hk, if_neg]
        exact ih h
      · simp only [firstMatch, hk] at h
        exact Option.noConfusion h

/-- A rule list whose first matching rule is r behaves exactly as the spec
formula for that rule: overflow of used plus amount is QuotaCalcOverflow,
exceeding the quota is QuotaExceed, and success updates the bucket
counter. -/
theorem check_quota_rules_spec (k : KycEval) (address : Address) (amount : Nat)
    (rec : Record) (qt : QuotaType) (now : Nat) (rules : List Rule) (r : Rule)
    (h : firstMatch k address rules = some r) :
    check_quota_rules k address amount rec qt now rules =
      (if u64Size ≤ bucketUsedAt rec qt now + amount then .error (.QuotaCalcOverflow qt)
       else if r.quota < bucketUsedAt rec qt now + amount then
         .error (.QuotaExceed qt (bucketUsedAt rec qt now + amount) amount r.quota)
       else .ok (rec.setUsed qt (bucketUsedAt rec qt now + amount))) := by
  induction rules with
  | nil => simp [firstMatch] at h
  | cons rule rest ih =>
    rcases hk : k address rule.kyc_expr with _ | b
    · simp only [firstMatch, hk] at h
      simp only [check_quota_rules, hk]
      exact ih h
    · cases b
      · simp only [firstMatch, hk] at h
        simp only [check_quota_rules, hk, if_neg]
        exact ih h
      · simp only [firstMatch, hk, Option.some.injEq] at h
        subst h
        simp only [check_quota_rules, hk, if_pos]
        have hu : check_quota_used qt rec (dateOfMillis (wrapI64 rec.last_op_time))
            (dateOfMillis (wrapI64 now)) = bucketUsedAt rec qt now :=
          check_quota_used_eq_spec qt rec _ _
        rw [hu]
        by_cases hov : u64Size ≤ bucketUsedAt rec qt now + amount
        · simp [ovAdd, hov]
        · simp [ovAdd, hov, Nat.mod_eq_of_lt (Nat.lt_of_not_le hov)]

end TransferQuota

namespace TransferQuota

/-- Updating the daily counter leaves the monthly bucket reading unchanged. -/
theorem bucketUsedAt_setUsed_daily_monthly (rec : Record) (a now : Nat) :
    bucketUsedAt (rec.setUsed .Daily a) .Monthly now = bucketUsedAt rec .Monthly now := rfl

/-- Updating the daily and monthly counters leaves the yearly bucket
reading unchanged. -/
theorem bucketUsedAt_setUsed_daily_monthly_yearly (rec : Record) (a b now : Nat) :
    bucketUsedAt ((rec.setUsed .Daily a).setUsed .Monthly b) .Yearly now
      = bucketUsedAt rec .Yearly now := rfl

/-- Full characterization of quota_transfer on an activated config in which
every bucket has a matching rule: buckets are checked in the fixed
SingleBill, Daily, Monthly, Yearly order against the stored counters, the
first offending bucket decides the error, and success writes back the
accumulated counters with last_op_time set to now. -/
theorem quota_transfer_characterize (k : KycEval) (now : Nat) (st : State)
    (ctx : ServiceContext) (p : QuotaTransferPayload) (cfg : AssetConfig)
    (rSB rD rM rY : Rule)
    (hc : st.asset_config p.asset_id = some cfg)
    (ha : cfg.activated = true)
    (hSB : firstMatch k p.address (cfg.rulesOf .SingleBill) = some rSB)
    (hD : firstMatch k p.address (cfg.rulesOf .Daily) = some rD)
    (hM : firstMatch k p.address (cfg.rulesOf .Monthly) = some rM)
    (hY : firstMatch k p.address (cfg.rulesOf .Yearly) = some rY) :
    quota_transfer k now st ctx p =
      (if u64Size ≤ bucketUsedAt (recordOf st p) .SingleBill now + p.amount then
        .error (.QuotaCalcOverflow .SingleBill)
      else if rSB.quota < bucketUsedAt (recordOf st p) .SingleBill now + p.amount then
        .error (.QuotaExceed .SingleBill
          (bucketUsedAt (recordOf st p) .SingleBill now + p.amount) p.amount rSB.quota)
      else if u64Size ≤ bucketUsedAt (recordOf st p) .Daily now + p.amount then
        .error (.QuotaCalcOverflow .Daily)
      else if rD.quota < bucketUsedAt (recordOf st p) .Daily now + p.amount then
        .error (.QuotaExceed .Daily
          (bucketUsedAt (recordOf st p) .Daily now + p.amount) p.amount rD.quota)
      else if u64Size ≤ bucketUsedAt (recordOf st p) .Monthly now + p.amount then
        .error (.QuotaCalcOverflow .Monthly)
      else if rM.quota < bucketUsedAt (recordOf st p) .Monthly now + p.amount then
        .error (.QuotaExceed .Monthly
          (bucketUsedAt (recordOf st p) .Monthly now + p.amount) p.amount rM.quota)
      else if u64Size ≤ bucketUsedAt (recordOf st p) .Yearly now + p.amount then
        .error (.QuotaCalcOverflow .Yearly)
      else if rY.quota < bucketUsedAt (recordOf st p) .Yearly now + p.amount then
        .error (.QuotaExceed .Yearly
          (bucketUsedAt (recordOf st p) .Yearly now + p.amount) p.amount rY.quota)
      else .ok (updatedState st p now
        (bucketUsedAt (recordOf st p) .Daily now + p.amount)
        (bucketUsedAt (recordOf st p) .Monthly now + p.amount)
        (bucketUsedAt (recordOf st p) .Yearly now + p.amount))) := by
  have hrec : (st.account_record p.asset_id p.address).getD Record.default = recordOf st p := rfl
  simp only [quota_transfer, hc, ha, check_quota, hrec]
  rw [check_quota_rules_spec k p.address p.amount _ .SingleBill now _ rSB hSB]
  by_cases o1 : u64Size ≤ bucketUsedAt (recordOf st p) .SingleBill now + p.amount
  · simp [o1]
  · simp only [o1, if_neg, if_false]
    by_cases b1 : rSB.quota < bucketUsedAt (recordOf st p) .SingleBill now + p.amount
    · simp [b1]
    · simp only [b1, if_neg, if_false]
      have hsb_id : (recordOf st p).setUsed .SingleBill
          (bucketUsedAt (recordOf st p) .SingleBill now + p.amount) = recordOf st p := rfl
      rw [hsb_id]
      rw [check_quota_rules_spec k p.address p.amount _ .Daily now _ rD hD]
      by_cases o2 : u64Size ≤ bucketUsedAt (recordOf st p) .Daily now + p.amount
      · simp [o2]
      · simp only [o2, if_neg, if_false]
        by_cases b2 : rD.quota < bucketUsedAt (recordOf st p) .Daily now + p.amount
        · simp [b2]
        · simp only [b2, if_neg, if_false]
          rw [check_quota_rules_spec k p.address p.amount _ .Monthly now _ rM hM]
          rw [bucketUsedAt_setUsed_daily_monthly]
          by_cases o3 : u64Size ≤ bucketUsedAt (recordOf st p) .Monthly now + p.amount
          · simp [o3]
          · simp only [o3, if_neg, if_false]
            by_cases b3 : rM.quota < bucketUsedAt (recordOf st p) .Monthly now + p.amount
            · simp [b3]
            · simp only [b3, if_neg, if_false]
              rw [check_quota_rules_spec k p.address p.amount _ .Yearly now _ rY hY]
              rw [bucketUsedAt_setUsed_daily_monthly_yearly]
              by_cases o4 : u64Size ≤ bucketUsedAt (recordOf st p) .Yearly now + p.amount
              · simp [o4]
              · simp only [o4, if_neg, if_false]
                by_cases b4 : rY.quota < bucketUsedAt (recordOf st p) .Yearly now + p.amount
                · simp [b4]
                · simp only [b4, if_neg, if_false]
                  rfl

end TransferQuota

namespace TransferQuota

/-- On an activated config, quota_transfer equals the four bucket outcomes
chained in the fixed SingleBill, Daily, Monthly, Yearly order, with the
first bucket error deciding the response and success writing back the
accumulated counters under last_op_time now. -/
theorem quota_transfer_eq_fold (k : KycEval) (now : Nat) (st : State)
    (ctx : ServiceContext) (p : QuotaTransferPayload) (cfg : AssetConfig)
    (hc : st.asset_config p.asset_id = some cfg)
    (ha : cfg.activated = true) :
    quota_transfer k now st ctx p =
      (match bucketOutcome k p.address cfg (recordOf st p) p.amount now .SingleBill with
       | .error e => .error e
       | .ok _ =>
       match bucketOutcome k p.address cfg (recordOf st p) p.amount now .Daily with
       | .error e => .error e
       | .ok uD =>
       match bucketOutcome k p.address cfg (recordOf st p) p.amount now .Monthly with
       | .error e => .error e
       | .ok uM =>
       match bucketOutcome k p.address cfg (recordOf st p) p.amount now .Yearly with
       | .error e => .error e
       | .ok uY => .ok (updatedState st p now uD uM uY)) := by
  have hrec : (st.account_record p.asset_id p.address).getD Record.default = recordOf st p := rfl
  simp only [quota_transfer, hc, ha, check_quota, hrec]
  rcases hSB : firstMatch k p.address (cfg.rulesOf .SingleBill) with _ | rSB
  · rw [check_quota_rules_no_match k p.address p.amount _ .SingleBill now _ hSB]
    simp [bucketOutcome, hSB]
  · rw [check_quota_rules_spec k p.address p.amount _ .SingleBill now _ rSB hSB]
    simp only [bucketOutcome, hSB]
    by_cases o1 : u64Size ≤ bucketUsedAt (recordOf st p) .SingleBill now + p.amount
    · simp [o1]
    · simp only [o1, if_neg, if_false]
      by_cases b1 : rSB.quota < bucketUsedAt (recordOf st p) .SingleBill now + p.amount
      · simp [b1]
      · simp only [b1, if_neg, if_false]
        have hsb_id : (recordOf st p).setUsed .SingleBill
            (bucketUsedAt (recordOf st p) .SingleBill now + p.amount) = recordOf st p := rfl
        rw [hsb_id]
        rcases hD : firstMatch k p.address (cfg.rulesOf .Daily) with _ | rD
        · rw [check_quota_rules_no_match k p.address p.amount _ .Daily now _ hD]
          simp [hD]
        · rw [check_quota_rules_spec k p.address p.amount _ .Daily now _ rD hD]
          simp only [hD]
          by_cases o2 : u64Size ≤ bucketUsedAt (recordOf st p) .Daily now + p.amount
          · simp [o2]
          · simp only [o2, if_neg, if_false]
            by_cases b2 : rD.quota < bucketUsedAt (recordOf st p) .Daily now + p.amount
            · simp [b2]
            · simp only [b2, if_neg, if_false]
              rcases hM : firstMatch k p.address (cfg.rulesOf .Monthly) with _ | rM
              · rw [check_quota_rules_no_match k p.address p.amount _ .Monthly now _ hM]
                simp [hM]
              · rw [check_quota_rules_spec k p.address p.amount _ .Monthly now _ rM hM]
                rw [bucketUsedAt_setUsed_daily_monthly]
                simp only [hM]
                by_cases o3 : u64Size ≤ bucketUsedAt (recordOf st p) .Monthly now + p.amount
                · simp [o3]
                · simp only [o3, if_neg, if_false]
                  by_cases b3 : rM.quota < bucketUsedAt (recordOf st p) .Monthly now + p.amount
                  · simp [b3]
                  · simp only [b3, if_neg, if_false]
                    rcases hY : firstMatch k p.address (cfg.rulesOf .Yearly) with _ | rY
                    · rw [check_quota_rules_no_match k p.address p.amount _ .Yearly now _ hY]
                      simp [hY]
                    · rw [check_quota_rules_spec k p.address p.amount _ .Yearly now _ rY hY]
                      rw [bucketUsedAt_setUsed_daily_monthly_yearly]
                      simp only [hY]
                      by_cases o4 : u64Size ≤ bucketUsedAt (recordOf st p) .Yearly now + p.amount
                      · simp [o4]
                      · simp only [o4, if_neg, if_false]
                        by_cases b4 : rY.quota < bucketUsedAt (recordOf st p) .Yearly now + p.amount
                        · simp [b4]
                        · simp only [b4, if_neg, if_false]
                          rfl

end TransferQuota

namespace TransferQuota

/-- C1 (amended): on an existing activated config, quota_transfer chains
the four buckets in the fixed SingleBill, Daily, Monthly, Yearly order;
within a bucket rules are tried in declaration order, rules whose KYC
evaluation errors are skipped, and a bucket with no matching rule fails
with QuotaNoRuleHit.  When every bucket has a matching rule with a u64
quota, the call succeeds iff used + amount stays within the first
matching rule quota of every bucket, and otherwise fails naming the first
offending bucket - with QuotaCalcOverflow when used + amount overflows
u64 and QuotaExceed otherwise. -/
theorem c1_quota_transfer_enforcement (k : KycEval) (now : Nat) (st : State)
    (ctx : ServiceContext) (p : QuotaTransferPayload) (cfg : AssetConfig)
    (hc : st.asset_config p.asset_id = some cfg)
    (ha : cfg.activated = true) :
    (quota_transfer k now st ctx p =
      (match bucketOutcome k p.address cfg (recordOf st p) p.amount now .SingleBill with
       | .error e => .error e
       | .ok _ =>
       match bucketOutcome k p.address cfg (recordOf st p) p.amount now .Daily with
       | .error e => .error e
       | .ok uD =>
       match bucketOutcome k p.address cfg (recordOf st p) p.amount now .Monthly with
       | .error e => .error e
       | .ok uM =>
       match bucketOutcome k p.address cfg (recordOf st p) p.amount now .Yearly with
       | .error e => .error e
       | .ok uY => .ok (updatedState st p now uD uM uY)))
    ∧ ((∀ qt, (firstMatch k p.address (cfg.rulesOf qt)).isSome) →
       (∀ qt r, firstMatch k p.address (cfg.rulesOf qt) = some r → r.quota < u64Size) →
       (((∃ st', quota_transfer k now st ctx p = .ok st') ↔
           (∀ qt r, firstMatch k p.address (cfg.rulesOf qt) = some r →
             bucketUsedAt (recordOf st p) qt now + p.amount ≤ r.quota))
        ∧ (∀ qt0 r0,
            firstOffender k p.address cfg (recordOf st p) p.amount now = some qt0 →
            firstMatch k p.address (cfg.rulesOf qt0) = some r0 →
            quota_transfer k now st ctx p = .error
              (if u64Size ≤ bucketUsedAt (recordOf st p) qt0 now + p.amount then
                .QuotaCalcOverflow qt0
              else
                .QuotaExceed qt0 (bucketUsedAt (recordOf st p) qt0 now + p.amount)
                  p.amount r0.quota)))) := by
  refine ⟨quota_transfer_eq_fold k now st ctx p cfg hc ha, ?_⟩
  intro hm hq
  obtain ⟨rSB, hSB⟩ := Option.isSome_iff_exists.mp (hm .SingleBill)
  obtain ⟨rD, hD⟩ := Option.isSome_iff_exists.mp (hm .Daily)
  obtain ⟨rM, hM⟩ := Option.isSome_iff_exists.mp (hm .Monthly)
  obtain ⟨rY, hY⟩ := Option.isSome_iff_exists.mp (hm .Yearly)
  have H := quota_transfer_characterize k now st ctx p cfg rSB rD rM rY hc ha hSB hD hM hY
  set uSB := bucketUsedAt (recordOf st p) .SingleBill now + p.amount with huSB
  set uD := bucketUsedAt (recordOf st p) .Daily now + p.amount with huD
  set uM := bucketUsedAt (recordOf st p) .Monthly now + p.amount with huM
  set uY := bucketUsedAt (recordOf st p) .Yearly now + p.amount with huY
  have noSB : ¬ rSB.quota < uSB → ¬ u64Size ≤ uSB :=
    fun hb ho => hb (lt_of_lt_of_le (hq .SingleBill rSB hSB) ho)
  have noD : ¬ rD.quota < uD → ¬ u64Size ≤ uD :=
    fun hb ho => hb (lt_of_lt_of_le (hq .Daily rD hD) ho)
  have noM : ¬ rM.quota < uM → ¬ u64Size ≤ uM :=
    fun hb ho => hb (lt_of_lt_of_le (hq .Monthly rM hM) ho)
  have noY : ¬ rY.quota < uY → ¬ u64Size ≤ uY :=
    fun hb ho => hb (lt_of_lt_of_le (hq .Yearly rY hY) ho)
  have key : (∃ st', quota_transfer k now st ctx p = .ok st') ↔
      (¬ rSB.quota < uSB ∧ ¬ rD.quota < uD ∧ ¬ rM.quota < uM ∧ ¬ rY.quota < uY) := by
    rw [H]
    constructor
    · rintro ⟨st', hok⟩
      by_cases o1 : u64Size ≤ uSB
      · simp [o1] at hok
      by_cases c1 : rSB.quota < uSB
      · simp [o1, c1] at hok
      by_cases o2 : u64Size ≤ uD
      · simp [o1, c1, o2] at hok
      by_cases c2 : rD.quota < uD
      · simp [o1, c1, o2, c2] at hok
      by_cases o3 : u64Size ≤ uM
      · simp [o1, c1, o2, c2, o3] at hok
      by_cases c3 : rM.quota < uM
      · simp [o1, c1, o2, c2, o3, c3] at hok
      by_cases o4 : u64Size ≤ uY
      · simp [o1, c1, o2, c2, o3, c3, o4] at hok
      by_cases c4 : rY.quota < uY
      · simp [o1, c1, o2, c2, o3, c3, o4, c4] at hok
      exact ⟨c1, c2, c3, c4⟩
    · rintro ⟨c1, c2, c3, c4⟩
      refine ⟨updatedState st p now uD uM uY, ?_⟩
      simp [noSB c1, c1, noD c2, c2, noM c3, c3, noY c4, c4]
  constructor
  · rw [key]
    constructor
    · rintro ⟨c1, c2, c3, c4⟩ qt r hr
      cases qt
      case SingleBill =>
        rw [hSB, Option.some.injEq] at hr; subst hr; exact Nat.le_of_not_lt c1
      case Daily =>
        rw [hD, Option.some.injEq] at hr; subst hr; exact Nat.le_of_not_lt c2
      case Monthly =>
        rw [hM, Option.some.injEq] at hr; subst hr; exact Nat.le_of_not_lt c3
      case Yearly =>
        rw [hY, Option.some.injEq] at hr; subst hr; exact Nat.le_of_not_lt c4
    · intro hall
      exact ⟨Nat.not_lt.mpr (hall .SingleBill rSB hSB), Nat.not_lt.mpr (hall .Daily rD hD),
        Nat.not_lt.mpr (hall .Monthly rM hM), Nat.not_lt.mpr (hall .Yearly rY hY)⟩
  · intro qt0 r0 hfo hr0
    by_cases c1 : rSB.quota < uSB
    · have hqt : qt0 = .SingleBill := by
        simp [firstOffender, buckets, List.find?, offendP, hSB, huSB, c1] at hfo
        exact hfo.symm
      subst hqt
      rw [hSB, Option.some.injEq] at hr0; subst hr0
      rw [H]
      by_cases o1 : u64Size ≤ uSB
      · simp [o1]
      · simp [o1, c1]
    · by_cases c2 : rD.quota < uD
      · have hqt : qt0 = .Daily := by
          simp [firstOffender, buckets, List.find?, offendP, hSB, hD,
            huSB, huD, c1, c2] at hfo
          exact hfo.symm
        subst hqt
        rw [hD, Option.some.injEq] at hr0; subst hr0
        rw [H]
        by_cases o2 : u64Size ≤ uD
        · simp [noSB c1, c1, o2]
        · simp [noSB c1, c1, o2, c2]
      · by_cases c3 : rM.quota < uM
        · have hqt : qt0 = .Monthly := by
            simp [firstOffender, buckets, List.find?, offendP, hSB, hD, hM,
              huSB, huD, huM, c1, c2, c3] at hfo
            exact hfo.symm
          subst hqt
          rw [hM, Option.some.injEq] at hr0; subst hr0
          rw [H]
          by_cases o3 : u64Size ≤ uM
          · simp [noSB c1, c1, noD c2, c2, o3]
          · simp [noSB c1, c1, noD c2, c2, o3, c3]
        · by_cases c4 : rY.quota < uY
          · have hqt : qt0 = .Yearly := by
              simp [firstOffender, buckets, List.find?, offendP, hSB, hD, hM, hY,
                huSB, huD, huM, huY, c1, c2, c3, c4] at hfo
              exact hfo.symm
            subst hqt
            rw [hY, Option.some.injEq] at hr0; subst hr0
            rw [H]
            by_cases o4 : u64Size ≤ uY
            · simp [noSB c1, c1, noD c2, c2, noM c3, c3, o4]
            · simp [noSB c1, c1, noD c2, c2, noM c3, c3, o4, c4]
          · exfalso
            simp [firstOffender, buckets, List.find?, offendP, hSB, hD, hM, hY,
              huSB, huD, huM, huY, c1, c2, c3, c4] at hfo

end TransferQuota

namespace TransferQuota

/-- Witness for C1: on a concrete activated single-rule config with a fresh
record, the enforcement theorem instantiates and the call succeeds,
accumulating 100 into each time bucket. -/
theorem c1_quota_transfer_enforcement_witness :
    quota_transfer (fun _ e => some (e == ("T"))) 0
      ⟨fun _ _ => none, fun _ => some ⟨0, true, [⟨("T"), 1000⟩], [⟨("T"), 1000⟩],
        [⟨("T"), 1000⟩], [⟨("T"), 1000⟩]⟩⟩
      ⟨1, none, 0, 0, none⟩ ⟨1, 2, 100⟩
    = .ok (updatedState
        ⟨fun _ _ => none, fun _ => some ⟨0, true, [⟨("T"), 1000⟩], [⟨("T"), 1000⟩],
          [⟨("T"), 1000⟩], [⟨("T"), 1000⟩]⟩⟩
        ⟨1, 2, 100⟩ 0 100 100 100) := by
  rw [(c1_quota_transfer_enforcement (fun _ e => some (e == ("T"))) 0
    ⟨fun _ _ => none, fun _ => some ⟨0, true, [⟨("T"), 1000⟩], [⟨("T"), 1000⟩],
      [⟨("T"), 1000⟩], [⟨("T"), 1000⟩]⟩⟩
    ⟨1, none, 0, 0, none⟩ ⟨1, 2, 100⟩
    ⟨0, true, [⟨("T"), 1000⟩], [⟨("T"), 1000⟩], [⟨("T"), 1000⟩], [⟨("T"), 1000⟩]⟩
    rfl rfl).1]
  rfl

/-- C1 counterexample: with the daily counter at u64::MAX on the same UTC
day, asking for one more unit offends the Daily bucket first (the config
is activated and every bucket has a matching rule), yet quota_transfer
fails with QuotaCalcOverflow Daily rather than a QuotaExceed naming
Daily. -/
theorem c1_counterexample :
    quota_transfer (fun _ e => some (e == ("T"))) 0
      ⟨fun _ _ => some ⟨0, 2 ^ 64 - 1, 0, 0⟩,
       fun _ => some ⟨0, true, [⟨("T"), 2 ^ 64 - 1⟩], [⟨("T"), 2 ^ 64 - 1⟩],
         [⟨("T"), 2 ^ 64 - 1⟩], [⟨("T"), 2 ^ 64 - 1⟩]⟩⟩
      ⟨1, none, 0, 0, none⟩ ⟨1, 2, 1⟩
      = .error (.QuotaCalcOverflow .Daily)
    ∧ firstOffender (fun _ e => some (e == ("T"))) 2
        ⟨0, true, [⟨("T"), 2 ^ 64 - 1⟩], [⟨("T"), 2 ^ 64 - 1⟩],
          [⟨("T"), 2 ^ 64 - 1⟩], [⟨("T"), 2 ^ 64 - 1⟩]⟩
        ⟨0, 2 ^ 64 - 1, 0, 0⟩ 1 0 = some .Daily
    ∧ ServiceError.QuotaCalcOverflow .Daily ≠
        .QuotaExceed .Daily (2 ^ 64 - 1 + 1) 1 (2 ^ 64 - 1) := by
  refine ⟨rfl, by decide, by simp⟩

/-- C6: the used counter of each bucket inside check_quota carries over the
stored amount only under UTC calendar tuple equality between
record.last_op_time and now: full (year, month, day) for Daily,
(year, month) for Monthly, year for Yearly; SingleBill always uses zero. -/
theorem c6_bucket_reset (qt : QuotaType) (rec : Record) (now : Nat) :
    check_quota_used qt rec (dateOfMillis (wrapI64 rec.last_op_time))
        (dateOfMillis (wrapI64 now)) =
      (let last := dateOfMillis (wrapI64 rec.last_op_time)
       let nowd := dateOfMillis (wrapI64 now)
       match qt with
       | .SingleBill => 0
       | .Daily =>
         if (last.year, last.month, last.day) = (nowd.year, nowd.month, nowd.day) then
           rec.daily_used_amount
         else 0
       | .Monthly =>
         if (last.year, last.month) = (nowd.year, nowd.month) then
           rec.monthly_used_amount
         else 0
       | .Yearly => if last.year = nowd.year then rec.yearly_used_amount else 0) :=
  check_quota_used_eq_spec qt rec _ _

/-- The rule loop never produces a NotAuthorized error. -/
theorem check_quota_rules_ne_notAuthorized (k : KycEval) (address : Address) (amount : Nat)
    (rec : Record) (qt : QuotaType) (now : Nat) (rules : List Rule) :
    check_quota_rules k address amount rec qt now rules ≠ .error .NotAuthorized := by
  induction rules with
  | nil => simp [check_quota_rules]
  | cons rule rest ih =>
    rcases hk : k address rule.kyc_expr with _ | b
    · simpa only [check_quota_rules, hk] using ih
    · cases b
      · simpa only [check_quota_rules, hk, if_neg] using ih
      · simp only [check_quota_rules, hk, if_pos]
        split_ifs <;> simp

/-- C5 (amended): quota_transfer performs no caller authorization at all -
its outcome is independent of the calling context (in particular of the
extra capability slot and the caller identity), and it never rejects with
NotAuthorized; only create_asset_config checks the asset-service token. -/
theorem c5_quota_transfer_no_auth_gate (k : KycEval) (now : Nat) (st : State)
    (ctx ctx' : ServiceContext) (p : QuotaTransferPayload) :
    quota_transfer k now st ctx p = quota_transfer k now st ctx' p
    ∧ quota_transfer k now st ctx p ≠ .error .NotAuthorized := by
  refine ⟨rfl, ?_⟩
  rcases hcfg : st.asset_config p.asset_id with _ | cfg
  · simp [quota_transfer, hcfg]
  · by_cases hact : cfg.activated = false
    · simp [quota_transfer, hcfg, hact]
    · rcases h1 : check_quota k p.address p.amount
          ((st.account_record p.asset_id p.address).getD Record.default) cfg .SingleBill now
        with e1 | r1
      · have he1 : e1 ≠ .NotAuthorized := fun h => by
          subst h
          exact check_quota_rules_ne_notAuthorized k p.address p.amount
            ((st.account_record p.asset_id p.address).getD Record.default)
            .SingleBill now (cfg.rulesOf .SingleBill) h1
        simp [quota_transfer, hcfg, hact, h1, he1]
      · rcases h2 : check_quota k p.address p.amount r1 cfg .Daily now with e2 | r2
        · have he2 : e2 ≠ .NotAuthorized := fun h => by
            subst h
            exact check_quota_rules_ne_notAuthorized k p.address p.amount r1
              .Daily now (cfg.rulesOf .Daily) h2
          simp [quota_transfer, hcfg, hact, h1, h2, he2]
        · rcases h3 : check_quota k p.address p.amount r2 cfg .Monthly now with e3 | r3
          · have he3 : e3 ≠ .NotAuthorized := fun h => by
              subst h
              exact check_quota_rules_ne_notAuthorized k p.address p.amount r2
                .Monthly now (cfg.rulesOf .Monthly) h3
            simp [quota_transfer, hcfg, hact, h1, h2, h3, he3]
          · rcases h4 : check_quota k p.address p.amount r3 cfg .Yearly now with e4 | r4
            · have he4 : e4 ≠ .NotAuthorized := fun h => by
                subst h
                exact check_quota_rules_ne_notAuthorized k p.address p.amount r3
                  .Yearly now (cfg.rulesOf .Yearly) h4
              simp [quota_transfer, hcfg, hact, h1, h2, h3, h4, he4]
            · simp [quota_transfer, hcfg, hact, h1, h2, h3, h4]

/-- C5 counterexample: a quota_transfer invoked with no extra token at all
(and a caller that is not any internal path) is not rejected - it
succeeds and performs the quota accounting for the named address. -/
theorem c5_counterexample :
    quota_transfer (fun _ e => some (e == ("T"))) 0
      ⟨fun _ _ => none, fun _ => some ⟨0, true, [⟨("T"), 1000⟩], [⟨("T"), 1000⟩],
        [⟨("T"), 1000⟩], [⟨("T"), 1000⟩]⟩⟩
      ⟨77, none, 0, 0, none⟩ ⟨1, 2, 50⟩
    = .ok (updatedState
        ⟨fun _ _ => none, fun _ => some ⟨0, true, [⟨("T"), 1000⟩], [⟨("T"), 1000⟩],
          [⟨("T"), 1000⟩], [⟨("T"), 1000⟩]⟩⟩
        ⟨1, 2, 50⟩ 0 50 50 50) := by
  rfl

end TransferQuota

namespace Chain

/-- C2: on each bridged syscall performing host work (service_read,
service_write, and contract_call which routes through service_write), the
bridge first charges delta = current_vm_cycles - all_cycles_used against
the context - answering OutOfCycles when current_vm_cycles lies below
all_cycles_used or when the meter cannot afford delta - then performs the
host operation, and on success stores the context meter into
all_cycles_used and returns that value to the VM. -/
theorem c2_bridge_cycle_reconciliation (h : Handlers) (st : BridgeState)
    (ctx : ServiceContext) (service method payload : String) (current_cycle : Nat) :
    (current_cycle < st.all_cycles_used →
      WriteableChain.service_read h st ctx service method payload current_cycle
        = (.error .OutOfCycles, st, ctx)
      ∧ WriteableChain.service_write h st ctx service method payload current_cycle
        = (.error .OutOfCycles, st, ctx))
    ∧ (st.all_cycles_used ≤ current_cycle →
       ctx.cycles_limit < ctx.cycles_used + (current_cycle - st.all_cycles_used) →
      WriteableChain.service_read h st ctx service method payload current_cycle
        = (.error .OutOfCycles, st, ctx)
      ∧ WriteableChain.service_write h st ctx service method payload current_cycle
        = (.error .OutOfCycles, st, ctx))
    ∧ (st.all_cycles_used ≤ current_cycle →
       ctx.cycles_used + (current_cycle - st.all_cycles_used) ≤ ctx.cycles_limit →
       (∀ data ctx2,
         dispatch_read h service method payload
           { ctx with cycles_used := ctx.cycles_used + (current_cycle - st.all_cycles_used) }
           = (.ok data, ctx2) →
         WriteableChain.service_read h st ctx service method payload current_cycle
           = (.ok (data, ctx2.cycles_used),
              { st with all_cycles_used := ctx2.cycles_used }, ctx2))
       ∧ (∀ data ctx2,
         dispatch_write h service method payload
           { ctx with cycles_used := ctx.cycles_used + (current_cycle - st.all_cycles_used) }
           = (.ok data, ctx2) →
         WriteableChain.service_write h st ctx service method payload current_cycle
           = (.ok (data, ctx2.cycles_used),
              { st with all_cycles_used := ctx2.cycles_used }, ctx2)))
    ∧ (∀ (codec : JsonCodec) (address : Address) (args jp : String),
        codec.encode_payload address args = some jp →
        WriteableChain.contract_call h codec st ctx address args current_cycle
          = (decode_json_response codec.decode_ret
              (WriteableChain.service_write h st ctx ("riscv") ("exec") jp current_cycle).1,
             (WriteableChain.service_write h st ctx ("riscv") ("exec") jp current_cycle).2.1,
             (WriteableChain.service_write h st ctx ("riscv") ("exec") jp current_cycle).2.2)) := by
  refine ⟨?_, ?_, ?_, ?_⟩
  · intro hlt
    have hov : (ovSub current_cycle st.all_cycles_used).2 = true := by
      simp [ovSub, hlt]
    constructor <;>
      simp [WriteableChain.service_read, WriteableChain.service_write, serve, hov]
  · intro hle hcant
    have hov : ovSub current_cycle st.all_cycles_used
        = (current_cycle - st.all_cycles_used, false) := by
      simp [ovSub, hle, Nat.not_lt.mpr hle]
    have hsub : ctx.sub_cycles (current_cycle - st.all_cycles_used) = (false, ctx) := by
      simp [ServiceContext.sub_cycles, Nat.not_le.mpr hcant]
    constructor <;>
      simp [WriteableChain.service_read, WriteableChain.service_write, serve, hov, hsub]
  · intro hle hfit
    have hov : ovSub current_cycle st.all_cycles_used
        = (current_cycle - st.all_cycles_used, false) := by
      simp [ovSub, hle, Nat.not_lt.mpr hle]
    have hsub : ctx.sub_cycles (current_cycle - st.all_cycles_used)
        = (true, { ctx with cycles_used :=
            ctx.cycles_used + (current_cycle - st.all_cycles_used) }) := by
      simp [ServiceContext.sub_cycles, hfit]
    constructor
    · intro data ctx2 hd
      simp [WriteableChain.service_read, serve, hov, hsub, hd]
    · intro data ctx2 hd
      simp [WriteableChain.service_write, serve, hov, hsub, hd]
  · intro codec address args jp hjp
    simp [WriteableChain.contract_call, hjp]

/-- Witness for C2: with trivial handlers, all_cycles_used 5, meter 10/100
and VM counter 7, a service_read charges the delta 2 and returns the new
meter value 12, storing it into all_cycles_used. -/
theorem c2_bridge_cycle_reconciliation_witness :
    WriteableChain.service_read
      ⟨fun _ _ c => (.ok (""), c), fun _ _ c => (.ok (""), c), fun _ _ c => (.ok (""), c),
       fun _ _ c => (.ok (""), c), fun _ _ c => (.ok (""), c), fun _ _ c => (.ok (""), c)⟩
      ⟨5, fun _ => none⟩ ⟨1, none, 100, 10, none⟩ ("asset") ("balance") ("p") 7
    = (.ok (("") , 12), ⟨12, fun _ => none⟩, ⟨1, none, 100, 12, none⟩) :=
  ((c2_bridge_cycle_reconciliation
      ⟨fun _ _ c => (.ok (""), c), fun _ _ c => (.ok (""), c), fun _ _ c => (.ok (""), c),
       fun _ _ c => (.ok (""), c), fun _ _ c => (.ok (""), c), fun _ _ c => (.ok (""), c)⟩
      ⟨5, fun _ => none⟩ ⟨1, none, 100, 10, none⟩ ("asset") ("balance") ("p") 7).2.2.1
    (by decide) (by decide)).1 ("") ⟨1, none, 100, 12, none⟩ rfl

/-- C8 (amended): the readonly bridge rejects set_storage and service_write
with WriteInReadonlyContext, leaving the bridge state and context
untouched; contract_call is routed as a service_read of riscv call, but
the bridge dispatch allow-list holds only asset, governance and kyc, so
once the cycle delta is affordable the recursive call fails with
ServiceNotFound instead of being permitted. -/
theorem c8_readonly_bridge (h : Handlers) (codec : JsonCodec) (st : BridgeState)
    (ctx : ServiceContext) (key val service method payload : String)
    (address : Address) (args : String) (current_cycle : Nat) :
    ReadonlyChain.set_storage st key val = (.error .WriteInReadonlyContext, st)
    ∧ ReadonlyChain.service_write st ctx service method payload current_cycle
        = (.error .WriteInReadonlyContext, st, ctx)
    ∧ (∀ jp, codec.encode_payload address args = some jp →
        ReadonlyChain.contract_call h codec st ctx address args current_cycle
          = (decode_json_response codec.decode_ret
              (ReadonlyChain.service_read h st ctx ("riscv") ("call") jp current_cycle).1,
             (ReadonlyChain.service_read h st ctx ("riscv") ("call") jp current_cycle).2.1,
             (ReadonlyChain.service_read h st ctx ("riscv") ("call") jp current_cycle).2.2))
    ∧ (∀ jp, codec.encode_payload address args = some jp →
        st.all_cycles_used ≤ current_cycle →
        ctx.cycles_used + (current_cycle - st.all_cycles_used) ≤ ctx.cycles_limit →
        (ReadonlyChain.contract_call h codec st ctx address args current_cycle).1
          = .error .ServiceNotFound) := by
  refine ⟨rfl, rfl, ?_, ?_⟩
  · intro jp hjp
    simp [ReadonlyChain.contract_call, hjp]
  · intro jp hjp hle hfit
    have hov : ovSub current_cycle st.all_cycles_used
        = (current_cycle - st.all_cycles_used, false) := by
      simp [ovSub, hle, Nat.not_lt.mpr hle]
    have hsub : ctx.sub_cycles (current_cycle - st.all_cycles_used)
        = (true, { ctx with cycles_used :=
            ctx.cycles_used + (current_cycle - st.all_cycles_used) }) := by
      simp [ServiceContext.sub_cycles, hfit]
    simp [ReadonlyChain.contract_call, hjp, ReadonlyChain.service_read,
      WriteableChain.service_read, serve, hov, hsub, dispatch_read,
      decode_json_response]

/-- C8 counterexample: from the readonly bridge, with ample cycles, trivial
handlers and a successful payload encoding, the recursive contract call is
not permitted - it fails with ServiceNotFound from the bridge dispatch. -/
theorem c8_counterexample :
    (ReadonlyChain.contract_call
      ⟨fun _ _ c => (.ok (""), c), fun _ _ c => (.ok (""), c), fun _ _ c => (.ok (""), c),
       fun _ _ c => (.ok (""), c), fun _ _ c => (.ok (""), c), fun _ _ c => (.ok (""), c)⟩
      ⟨fun _ _ => some ("j"), fun s => some s⟩
      ⟨0, fun _ => none⟩ ⟨1, none, 100, 0, none⟩ 9 ("a") 0).1
    = .error .ServiceNotFound := by
  rfl

/-- Witness for C8 at a concrete readonly bridge. -/
theorem c8_readonly_bridge_witness :
    (ReadonlyChain.contract_call
      ⟨fun _ _ c => (.ok (""), c), fun _ _ c => (.ok (""), c), fun _ _ c => (.ok (""), c),
       fun _ _ c => (.ok (""), c), fun _ _ c => (.ok (""), c), fun _ _ c => (.ok (""), c)⟩
      ⟨fun _ _ => some ("j"), fun s => some s⟩
      ⟨2, fun _ => none⟩ ⟨1, none, 50, 3, none⟩ 8 ("a") 6).1
    = .error .ServiceNotFound :=
  (c8_readonly_bridge
      ⟨fun _ _ c => (.ok (""), c), fun _ _ c => (.ok (""), c), fun _ _ c => (.ok (""), c),
       fun _ _ c => (.ok (""), c), fun _ _ c => (.ok (""), c), fun _ _ c => (.ok (""), c)⟩
      ⟨fun _ _ => some ("j"), fun s => some s⟩
      ⟨2, fun _ => none⟩ ⟨1, none, 50, 3, none⟩ ("k") ("v") ("s") ("m") ("p") 8 ("a") 6).2.2.2
    ("j") rfl (by decide) (by decide)

end Chain

namespace Asset

/-- Payload verification of hook_transfer_from can only fail with memo or
meaningless-value errors, never with Unauthorized. -/
theorem hook_verify_err_ne (p : HookTransferFromPayload) (e : ServiceError)
    (h : p.verify = .error e) : e ≠ .Unauthorized := by
  simp only [HookTransferFromPayload.verify, verify_memo] at h
  split_ifs at h <;> simp_all <;> subst h <;> decide

/-- The internal balance movement can only fail with LackOfBalance or
BalanceOverflow, never with Unauthorized. -/
theorem _transfer_ne_unauthorized (st : State) (s r : Address) (aid : Hash) (v : Nat) :
    (_transfer st s r aid v).1 ≠ .error .Unauthorized := by
  unfold _transfer
  by_cases h1 : s = r
  · simp [h1]
  · simp only [h1, if_false]
    by_cases h2 : (asset_balance st s aid).value < v
    · simp [h2]
    · simp only [h2, if_false]
      rcases hs : (asset_balance st s aid).checked_sub v with e1 | sb
      · have he : e1 = .BalanceOverflow := by
          simp only [AssetBalance.checked_sub] at hs
          split_ifs at hs <;> simp_all
        simp [hs, he]
      · rcases hadd : (asset_balance (set_account_value st s aid sb) r aid).checked_add v
          with e2 | rb
        · have he : e2 = .BalanceOverflow := by
            simp only [AssetBalance.checked_add] at hadd
            split_ifs at hadd <;> simp_all
          simp [hs, hadd, he]
        · simp [hs, hadd]

/-- C9: when the context carries no extra at all, hook_transfer_from never
answers Unauthorized - the governance check passes and the native-asset
transfer is attempted; only a present extra different from the governance
token is rejected with Unauthorized. -/
theorem c9_hook_transfer_from_extra (st : State) (ctx : ServiceContext)
    (p : HookTransferFromPayload) :
    (ctx.extra = none → (hook_transfer_from st ctx p).1 ≠ .error .Unauthorized)
    ∧ (ctx.extra = none → p.verify = .ok () → ∀ aid, st.native_asset = some aid →
        hook_transfer_from st ctx p = _transfer st p.sender p.recipient aid p.value)
    ∧ (∀ e, ctx.extra = some e → e ≠ GOVERNANCE_TOKEN → p.verify = .ok () →
        hook_transfer_from st ctx p = (.error .Unauthorized, st)) := by
  refine ⟨?_, ?_, ?_⟩
  · intro hx
    rcases hv : p.verify with e | u
    · have := hook_verify_err_ne p e hv
      simp [hook_transfer_from, hv, this]
    · rcases hn : st.native_asset with _ | aid
      · simp [hook_transfer_from, hv, hx, hn]
      · simpa [hook_transfer_from, hv, hx, hn]
          using _transfer_ne_unauthorized st p.sender p.recipient aid p.value
  · intro hx hv aid hn
    simp [hook_transfer_from, hv, hx, hn]
  · intro e hx hne hv
    simp [hook_transfer_from, hv, hx, hne]

/-- Witness for C9: with no extra, a concrete hook_transfer_from goes
straight to the native-asset transfer. -/
theorem c9_hook_transfer_from_extra_witness :
    hook_transfer_from
      ⟨fun h => if h = 1 then some ⟨1, ("N"), ("HT"), 3, 100, 8, false⟩ else none,
       fun a h => if a = 5 ∧ h = 1 then some ⟨10, fun _ => 0⟩ else none, some 1⟩
      ⟨5, none, 0, 0, none⟩ ⟨5, 6, 10, ("")⟩
    = _transfer
      ⟨fun h => if h = 1 then some ⟨1, ("N"), ("HT"), 3, 100, 8, false⟩ else none,
       fun a h => if a = 5 ∧ h = 1 then some ⟨10, fun _ => 0⟩ else none, some 1⟩
      5 6 1 10 :=
  (c9_hook_transfer_from_extra
      ⟨fun h => if h = 1 then some ⟨1, ("N"), ("HT"), 3, 100, 8, false⟩ else none,
       fun a h => if a = 5 ∧ h = 1 then some ⟨10, fun _ => 0⟩ else none, some 1⟩
      ⟨5, none, 0, 0, none⟩ ⟨5, 6, 10, ("")⟩).2.1 rfl rfl 1 rfl

/-- C10: a balance movement whose effective sender (after the extra-caller
override) equals the recipient succeeds immediately, regardless of the
sender balance, and leaves every account balance and allowance untouched;
lifted to transfer, a self-transfer that passes the earlier checks
succeeds with the state unchanged. -/
theorem c10_self_transfer_noop (env : Env) (tqs : Option QuotaEngine) (st : State)
    (ctx : ServiceContext) (p : TransferPayload) :
    (∀ s aid v, _transfer st s s aid v = (.ok (), st))
    ∧ (p.verify = .ok () → (st.assets p.asset_id).isNone = false →
       extra_caller env ctx = .ok p.«to» →
       (∀ q, tqs = some q → q.quota_transfer_ ctx ⟨p.asset_id, ctx.caller, p.value⟩ = true) →
       (transfer env tqs st ctx p).1 = .ok () ∧ (transfer env tqs st ctx p).2.1 = st) := by
  constructor
  · intro s aid v
    simp [_transfer]
  · intro hv hass hec hq
    rcases tqs with _ | q
    · constructor <;> simp [transfer, hv, hass, hec, quota_consult, _transfer]
    · constructor <;>
        simp [transfer, hv, hass, hec, quota_consult, hq q rfl, _transfer]

/-- Witness for C10: with the extra-caller override naming the recipient as
the effective sender, a transfer of 50 out of a zero balance succeeds and
the state is unchanged. -/
theorem c10_self_transfer_noop_witness :
    (transfer (⟨fun s => if s = ("06") then some 6 else none, fun _ _ => 0⟩ : Env) none
      ⟨fun h => if h = 1 then some ⟨1, ("N"), ("HT"), 3, 100, 8, false⟩ else none,
       fun _ _ => none, none⟩
      ⟨9, none, 0, 0, some ("06")⟩ ⟨1, 6, 50, ("")⟩).1 = .ok ()
    ∧ (transfer (⟨fun s => if s = ("06") then some 6 else none, fun _ _ => 0⟩ : Env) none
      ⟨fun h => if h = 1 then some ⟨1, ("N"), ("HT"), 3, 100, 8, false⟩ else none,
       fun _ _ => none, none⟩
      ⟨9, none, 0, 0, some ("06")⟩ ⟨1, 6, 50, ("")⟩).2.1
    = ⟨fun h => if h = 1 then some ⟨1, ("N"), ("HT"), 3, 100, 8, false⟩ else none,
       fun _ _ => none, none⟩ :=
  (c10_self_transfer_noop (⟨fun s => if s = ("06") then some 6 else none, fun _ _ => 0⟩ : Env)
      none
      ⟨fun h => if h = 1 then some ⟨1, ("N"), ("HT"), 3, 100, 8, false⟩ else none,
       fun _ _ => none, none⟩
      ⟨9, none, 0, 0, some ("06")⟩ ⟨1, 6, 50, ("")⟩).2
    rfl rfl (by simp [extra_caller]) (fun q hq => Option.noConfusion hq)

end Asset

namespace Asset

/-- C3 (amended): when the quota engine consultation fails, the ledger
operation aborts with an error, but only transfer aborts with no state
mutated: transfer_from has already persisted the decremented allowance of
the caller, and create_asset has already persisted the asset record and
the init-mint balances. -/
theorem c3_quota_failure_abort (env : Env) (q : QuotaEngine) (st : State)
    (ctx : ServiceContext) (pt : TransferPayload) (pf : TransferFromPayload)
    (pc : CreateAssetPayload) :
    (pt.verify = .ok () → (st.assets pt.asset_id).isNone = false →
     ∀ sender, extra_caller env ctx = .ok sender →
     q.quota_transfer_ ctx ⟨pt.asset_id, ctx.caller, pt.value⟩ = false →
     transfer env (some q) st ctx pt
       = (.error .TransferQuota, st,
          [.quotaTransfer ctx ⟨pt.asset_id, ctx.caller, pt.value⟩]))
    ∧ (pf.verify = .ok () → (st.assets pf.asset_id).isNone = false →
       ∀ caller, extra_caller env ctx = .ok caller →
       ¬ (asset_balance st pf.sender pf.asset_id).allowance caller < pf.value →
       q.quota_transfer_ ctx ⟨pf.asset_id, pf.sender, pf.value⟩ = false →
       transfer_from env (some q) st ctx pf
         = (.error .TransferQuota,
            set_account_value st pf.sender pf.asset_id
              ((asset_balance st pf.sender pf.asset_id).update_allowance caller
                ((asset_balance st pf.sender pf.asset_id).allowance caller - pf.value)),
            [.quotaTransfer ctx ⟨pf.asset_id, pf.sender, pf.value⟩]))
    ∧ (pc.verify = .ok () →
       (st.assets (env.mk_asset_id pc ctx.caller)).isSome = false →
       q.create_asset_config_ (ctx.with_context (some TRANSFER_QUOTA_TOKEN))
         ⟨env.mk_asset_id pc ctx.caller, pc.admin⟩ = false →
       create_asset env (some q) st ctx pc
         = (.error .CreateTransferQuota,
            pc.init_mints.foldl (fun s mint => set_account_value s mint.addr
              (env.mk_asset_id pc ctx.caller) (AssetBalance.new mint.balance))
              (set_asset_ st ⟨env.mk_asset_id pc ctx.caller, pc.name, pc.symbol, pc.admin,
                pc.supply, pc.precision, pc.relayable⟩),
            [.createConfig (ctx.with_context (some TRANSFER_QUOTA_TOKEN))
              ⟨env.mk_asset_id pc ctx.caller, pc.admin⟩])) := by
  refine ⟨?_, ?_, ?_⟩
  · intro hv hass sender hec hq
    simp [transfer, hv, hass, hec, quota_consult, hq]
  · intro hv hass caller hec hallow hq
    simp [transfer_from, hv, hass, hec, hallow, ovSub, Nat.not_lt.mp hallow,
      quota_consult, hq]
  · intro hv hfresh hq
    simp [create_asset, hv, hfresh, hq]

/-- C3 counterexample: a transfer_from whose quota consultation fails
aborts with TransferQuota, but the caller allowance of the sender has
already been cut from 100 to 50 in the persisted state. -/
theorem c3_counterexample :
    (transfer_from (⟨fun _ => none, fun _ _ => 0⟩ : Env)
        (some ⟨fun _ _ => false, fun _ _ => false⟩)
        ⟨fun h => if h = 1 then some ⟨1, ("N"), ("HT"), 3, 100, 8, false⟩ else none,
         fun a h => if a = 5 ∧ h = 1 then some ⟨0, fun s => if s = 7 then 100 else 0⟩ else none,
         none⟩
        ⟨7, none, 0, 0, none⟩ ⟨1, 5, 9, 50, ("")⟩).1 = .error .TransferQuota
    ∧ (asset_balance
        (transfer_from (⟨fun _ => none, fun _ _ => 0⟩ : Env)
          (some ⟨fun _ _ => false, fun _ _ => false⟩)
          ⟨fun h => if h = 1 then some ⟨1, ("N"), ("HT"), 3, 100, 8, false⟩ else none,
           fun a h => if a = 5 ∧ h = 1 then some ⟨0, fun s => if s = 7 then 100 else 0⟩ else none,
           none⟩
          ⟨7, none, 0, 0, none⟩ ⟨1, 5, 9, 50, ("")⟩).2.1 5 1).allowance 7 = 50
    ∧ (asset_balance
        ⟨fun h => if h = 1 then some ⟨1, ("N"), ("HT"), 3, 100, 8, false⟩ else none,
         fun a h => if a = 5 ∧ h = 1 then some ⟨0, fun s => if s = 7 then 100 else 0⟩ else none,
         none⟩ 5 1).allowance 7 = 100 :=
  ⟨rfl, rfl, rfl⟩

/-- Witness for C3: the transfer clause at a concrete failing quota engine:
the operation aborts with TransferQuota and returns the state unchanged. -/
theorem c3_quota_failure_abort_witness :
    transfer (⟨fun _ => none, fun _ _ => 0⟩ : Env)
      (some ⟨fun _ _ => false, fun _ _ => false⟩)
      ⟨fun h => if h = 1 then some ⟨1, ("N"), ("HT"), 3, 100, 8, false⟩ else none,
       fun _ _ => none, none⟩
      ⟨7, none, 0, 0, none⟩ ⟨1, 6, 50, ("")⟩
    = (.error .TransferQuota,
       ⟨fun h => if h = 1 then some ⟨1, ("N"), ("HT"), 3, 100, 8, false⟩ else none,
        fun _ _ => none, none⟩,
       [.quotaTransfer ⟨7, none, 0, 0, none⟩ ⟨1, 7, 50⟩]) :=
  (c3_quota_failure_abort (⟨fun _ => none, fun _ _ => 0⟩ : Env)
      ⟨fun _ _ => false, fun _ _ => false⟩
      ⟨fun h => if h = 1 then some ⟨1, ("N"), ("HT"), 3, 100, 8, false⟩ else none,
       fun _ _ => none, none⟩
      ⟨7, none, 0, 0, none⟩ ⟨1, 6, 50, ("")⟩ ⟨1, 5, 9, 50, ("")⟩
      ⟨("N"), ("HT"), 3, 100, [], 8, false⟩).1
    rfl rfl 7 rfl rfl

/-- C4 (amended): only create_asset forwards a cloned context whose extra
is the asset-service capability token; transfer and transfer_from forward
the caller context unchanged to the quota engine, so its extra is
whatever the caller carried. -/
theorem c4_quota_context_token (env : Env) (q : QuotaEngine) (st : State)
    (ctx : ServiceContext) (pt : TransferPayload) (pf : TransferFromPayload)
    (pc : CreateAssetPayload) :
    (pc.verify = .ok () → (st.assets (env.mk_asset_id pc ctx.caller)).isSome = false →
      (create_asset env (some q) st ctx pc).2.2
        = [.createConfig (ctx.with_context (some TRANSFER_QUOTA_TOKEN))
            ⟨env.mk_asset_id pc ctx.caller, pc.admin⟩]
      ∧ (ctx.with_context (some TRANSFER_QUOTA_TOKEN)).extra = some TRANSFER_QUOTA_TOKEN)
    ∧ (pt.verify = .ok () → (st.assets pt.asset_id).isNone = false →
       ∀ sender, extra_caller env ctx = .ok sender →
       (transfer env (some q) st ctx pt).2.2
         = [.quotaTransfer ctx ⟨pt.asset_id, ctx.caller, pt.value⟩])
    ∧ (pf.verify = .ok () → (st.assets pf.asset_id).isNone = false →
       ∀ caller, extra_caller env ctx = .ok caller →
       ¬ (asset_balance st pf.sender pf.asset_id).allowance caller < pf.value →
       (transfer_from env (some q) st ctx pf).2.2
         = [.quotaTransfer ctx ⟨pf.asset_id, pf.sender, pf.value⟩]) := by
  refine ⟨?_, ?_, ?_⟩
  · intro hv hfresh
    refine ⟨?_, rfl⟩
    cases hq : q.create_asset_config_ (ctx.with_context (some TRANSFER_QUOTA_TOKEN))
        ⟨env.mk_asset_id pc ctx.caller, pc.admin⟩ <;>
      simp [create_asset, hv, hfresh, hq]
  · intro hv hass sender hec
    cases hq : q.quota_transfer_ ctx ⟨pt.asset_id, ctx.caller, pt.value⟩ <;>
      simp [transfer, hv, hass, hec, quota_consult, hq]
  · intro hv hass caller hec hallow
    cases hq : q.quota_transfer_ ctx ⟨pf.asset_id, pf.sender, pf.value⟩ <;>
      simp [transfer_from, hv, hass, hec, hallow, ovSub, Nat.not_lt.mp hallow,
        quota_consult, hq]

/-- C4 counterexample: a transfer whose caller context carries no extra at
all forwards exactly that context to the quota engine - its extra is none,
not the asset-service token. -/
theorem c4_counterexample :
    (transfer (⟨fun _ => none, fun _ _ => 0⟩ : Env)
      (some ⟨fun _ _ => true, fun _ _ => true⟩)
      ⟨fun h => if h = 1 then some ⟨1, ("N"), ("HT"), 3, 100, 8, false⟩ else none,
       fun _ _ => none, none⟩
      ⟨9, none, 0, 0, none⟩ ⟨1, 6, 50, ("")⟩).2.2
      = [.quotaTransfer ⟨9, none, 0, 0, none⟩ ⟨1, 9, 50⟩]
    ∧ (⟨9, none, 0, 0, none⟩ : ServiceContext).extra ≠ some TRANSFER_QUOTA_TOKEN :=
  ⟨rfl, by decide⟩

/-- Witness for C4: the create_asset clause at a concrete engine: the
forwarded context carries the asset-service token. -/
theorem c4_quota_context_token_witness :
    (create_asset (⟨fun _ => none, fun _ _ => 2⟩ : Env)
      (some ⟨fun _ _ => true, fun _ _ => true⟩)
      ⟨fun _ => none, fun _ _ => none, none⟩
      ⟨9, none, 0, 0, none⟩ ⟨("N"), ("HT"), 3, 100, [⟨5, 100⟩], 8, false⟩).2.2
      = [.createConfig
          ((⟨9, none, 0, 0, none⟩ : ServiceContext).with_context (some TRANSFER_QUOTA_TOKEN))
          ⟨2, 3⟩]
    ∧ ((⟨9, none, 0, 0, none⟩ : ServiceContext).with_context
        (some TRANSFER_QUOTA_TOKEN)).extra = some TRANSFER_QUOTA_TOKEN :=
  (c4_quota_context_token (⟨fun _ => none, fun _ _ => 2⟩ : Env)
      ⟨fun _ _ => true, fun _ _ => true⟩
      ⟨fun _ => none, fun _ _ => none, none⟩
      ⟨9, none, 0, 0, none⟩ ⟨1, 6, 50, ("")⟩ ⟨1, 5, 9, 50, ("")⟩
      ⟨("N"), ("HT"), 3, 100, [⟨5, 100⟩], 8, false⟩).1
    rfl rfl

end Asset

namespace TransferQuota

/-- Witness for C5 at two concrete contexts differing in caller and extra:
the outcome is identical and is never NotAuthorized. -/
theorem c5_quota_transfer_no_auth_gate_witness :
    quota_transfer (fun _ e => some (e == ("T"))) 0
      ⟨fun _ _ => none, fun _ => some ⟨0, true, [⟨("T"), 1000⟩], [⟨("T"), 1000⟩],
        [⟨("T"), 1000⟩], [⟨("T"), 1000⟩]⟩⟩
      ⟨77, none, 0, 0, none⟩ ⟨1, 2, 40⟩
    = quota_transfer (fun _ e => some (e == ("T"))) 0
      ⟨fun _ _ => none, fun _ => some ⟨0, true, [⟨("T"), 1000⟩], [⟨("T"), 1000⟩],
        [⟨("T"), 1000⟩], [⟨("T"), 1000⟩]⟩⟩
      ⟨3, none, 0, 0, some TRANSFER_QUOTA_TOKEN⟩ ⟨1, 2, 40⟩
    ∧ quota_transfer (fun _ e => some (e == ("T"))) 0
      ⟨fun _ _ => none, fun _ => some ⟨0, true, [⟨("T"), 1000⟩], [⟨("T"), 1000⟩],
        [⟨("T"), 1000⟩], [⟨("T"), 1000⟩]⟩⟩
      ⟨77, none, 0, 0, none⟩ ⟨1, 2, 40⟩ ≠ .error .NotAuthorized :=
  c5_quota_transfer_no_auth_gate (fun _ e => some (e == ("T"))) 0
    ⟨fun _ _ => none, fun _ => some ⟨0, true, [⟨("T"), 1000⟩], [⟨("T"), 1000⟩],
      [⟨("T"), 1000⟩], [⟨("T"), 1000⟩]⟩⟩
    ⟨77, none, 0, 0, none⟩ ⟨3, none, 0, 0, some TRANSFER_QUOTA_TOKEN⟩ ⟨1, 2, 40⟩

end TransferQuota

namespace Riscv

/-- Inversion of the modelled Address::from_bytes. -/
theorem address_from_bytes_eq (b a : ByteL) (h : address_from_bytes b = some a) :
    a = b ∧ b.length = 20 := by
  simp only [address_from_bytes] at h
  split_ifs at h with hl
  exact ⟨((Option.some.injEq _ _).mp h).symm, hl⟩

/-- C7: a successful deploy returns as contract address exactly the first
20 bytes of digest(tx_hash bytes) for the present tx_hash, and leaves the
code map containing digest(code) mapped to the decoded code; a deploy in a
context without a tx_hash fails with NotInExecContext instead of deriving
an address. -/
theorem c7_deploy_address_and_code (env : Env) (intp : Interpreter) (st : State)
    (ctx : ServiceContext) (payload : DeployPayload) :
    (∀ resp st' ctx',
      deploy env intp st ctx payload = (.ok resp, st', ctx') →
      (∃ tx_hash, ctx.tx_hash = some tx_hash
        ∧ resp.address = (env.digest tx_hash).take 20)
      ∧ (∀ code, hex_decode payload.code.toList = some code →
          st'.code_map (env.digest code) = some code))
    ∧ (ctx.tx_hash = none → env.auth_deploy ctx.caller = true →
       ∀ code, hex_decode payload.code.toList = some code →
       ctx.cycles_used + code.length * 10 ≤ ctx.cycles_limit →
       (deploy env intp st ctx payload).1
         = .error (.NotInExecContext ("riscv deploy"))) := by
  constructor
  · intro resp st' ctx' hok
    by_cases hauth : env.auth_deploy ctx.caller = false
    · simp [deploy, hauth] at hok
    · have hauth' : env.auth_deploy ctx.caller = true := by
        cases h : env.auth_deploy ctx.caller
        · exact absurd h hauth
        · rfl
      rcases hhex : hex_decode payload.code.data with _ | code
      · simp [deploy, String.toList, hauth', hhex] at hok
      · rcases hsub : ctx.sub_cycles (code.length * 10) with ⟨b, ctx1⟩
        cases b
        · simp [deploy, String.toList, hauth', hhex, hsub] at hok
        · rcases htx : ctx.tx_hash with _ | tx_hash
          · simp [deploy, String.toList, hauth', hhex, hsub, htx] at hok
          · rcases haddr : address_from_bytes ((env.digest tx_hash).take 20) with _ | ca
            · simp [deploy, String.toList, hauth', hhex, hsub, htx, haddr] at hok
            · obtain ⟨hca, -⟩ := address_from_bytes_eq _ _ haddr
              have hcodemap : ∀ st2 : State,
                  st2.code_map = (fun h => if h = env.digest code then some code
                    else st.code_map h) →
                  ∀ code', hex_decode payload.code.toList = some code' →
                  st2.code_map (env.digest code') = some code' := by
                intro st2 hmap code' hcode'
                have hcc : code = code' :=
                  (Option.some.injEq _ _).mp (hhex.symm.trans hcode')
                subst hcc
                rw [hmap]
                simp
              by_cases hinit : payload.init_args = ("")
              · simp only [deploy, String.toList, hauth', hhex, hsub, htx, haddr, hinit,
                  if_true] at hok
                cases hok
                refine ⟨⟨tx_hash, rfl, hca⟩, ?_⟩
                intro code' hcode'
                exact hcodemap _ rfl code' hcode'
              · rcases hrun : run_interpreter intp ctx1 st.storage with e | out
                · simp [deploy, String.toList, hauth', hhex, hsub, htx, haddr, hinit,
                    hrun] at hok
                · simp only [deploy, String.toList, hauth', hhex, hsub, htx, haddr, hinit,
                    hrun] at hok
                  cases hok
                  refine ⟨⟨tx_hash, rfl, hca⟩, ?_⟩
                  intro code' hcode'
                  exact hcodemap _ rfl code' hcode'
  · intro htx hauth code hhex hfit
    have hhex' : hex_decode payload.code.data = some code := hhex
    have hsub : ctx.sub_cycles (code.length * 10)
        = (true, { ctx with cycles_used := ctx.cycles_used + code.length * 10 }) := by
      simp [ServiceContext.sub_cycles, hfit]
    simp [deploy, String.toList, hauth, hhex, hhex', hsub, htx]

/-- Witness for C7: a deploy outside a transaction context fails with
NotInExecContext. -/
theorem c7_deploy_address_and_code_witness :
    (deploy (⟨fun b => List.replicate 32 b.length, fun _ => true⟩ : Env)
      (fun s => some ⟨0, (""), 0, s⟩)
      ⟨fun _ => none, fun _ => none, fun _ => none⟩
      ⟨1, none, 1000, 0, none⟩ ⟨("00ff"), .Binary, ("")⟩).1
    = .error (.NotInExecContext ("riscv deploy")) :=
  (c7_deploy_address_and_code (⟨fun b => List.replicate 32 b.length, fun _ => true⟩ : Env)
      (fun s => some ⟨0, (""), 0, s⟩)
      ⟨fun _ => none, fun _ => none, fun _ => none⟩
      ⟨1, none, 1000, 0, none⟩ ⟨("00ff"), .Binary, ("")⟩).2
    rfl rfl [0, 255] rfl (by decide)

end Riscv
